import Mathlib

set_option allowUnsafeReducibility true
attribute [semireducible] Rat.add Rat.mul Rat.sub Rat.inv Nat.gcd

/-!
Shallow embedding of the groblins simulation core: the entity/component
store, spatial partition, walkability grid, physics tick and the food
need tracker, translated from the TypeScript source (`world.ts` final
iteration with `Partitions`, and the final iterations of `groblin.ts`,
`ecs.ts`, `objects.ts`).

Conventions of the embedding:
* TypeScript numbers are modelled as exact rationals (`ℚ`).
* `Math.floor` is `ratFloor` (the mathematical floor, computable),
  `Math.round q` is `ratFloor (q + 1/2)` (JS rounds half-way cases up,
  matching the floor of `q + 1/2` for all signs).
* Euclidean-distance comparisons `Math.sqrt d2 ≤ r` are written as the
  equivalent `d2 ≤ r^2` (both sides nonnegative in every use site).
* JS `Map`/`Set` objects are association lists / lists kept in insertion
  order; `Set.add` is append-if-absent, mirroring JS insertion-order
  iteration.
* Entities are mutable shared objects in JS; here the world holds a
  heap `id ↦ Entity`, and every structure that held an object reference
  (partitions, colliding pairs, `landed`, `crawling`, plan targets)
  holds the entity id instead.  Removal from the `EntityCollection`
  does not deallocate the heap entry, matching JS object lifetime.
* The A* path finder (`PF.AStarFinder.findPath`) and the grid-walking
  `explore` search traverse the external `pathfinding` library's node
  graph; they are passed in as opaque deterministic functions.  No
  claim below depends on their output values.
-/

namespace Groblins

/-- Floor of a rational as an integer (`num.fdiv den`; the
denominator of a `ℚ` is positive, so this is the mathematical floor),
written without the `FloorRing` machinery so that it reduces inside
the kernel. -/
def ratFloor (q : ℚ) : ℤ := q.num.fdiv q.den

/-- Ceiling of a rational, `JS Math.ceil`. -/
def ratCeil (q : ℚ) : ℤ := -(ratFloor (-q))

/-- JS `Math.round`: round half-up. -/
def jsRound (q : ℚ) : ℤ := ratFloor (q + 1/2)

/-- JS `Math.sign` (on non-NaN numbers). -/
def jsSign (q : ℚ) : ℚ := if 0 < q then 1 else if q < 0 then -1 else 0

-- Tuning constants, `world.ts` lines 9-16.
def TERMINAL_VELOCITY : ℚ := 10
def BERRY_TIMER_MAX : ℚ := 1/10
def GRAVITY : ℚ := 100
def JUMP_POP : ℚ := 15
def WALL_ELASTICITY : ℚ := 1/10
def DRAG : ℚ := 3
def GRID_SIZE : ℚ := 2

/-- The `passthrough` classification of a collidable. -/
inductive Passthrough where
  | solid
  | climbable
  | empty
deriving DecidableEq, Repr

/-- Discrete state of the food need tracker. -/
inductive FoodState where
  | full
  | hungry
  | starving
deriving DecidableEq, Repr

/-- Hysteresis thresholds of `FoodTracker`. -/
structure Thresholds where
  starving : ℚ
  hungry : ℚ
  full : ℚ
deriving DecidableEq, Repr

/-- Target of a `move` plan: the source stores either a live entity
reference (`to: food`) or a plain coordinate literal. -/
inductive Target where
  | ent (i : Nat)
  | pt (x y : ℚ)
deriving DecidableEq, Repr

/-- A plan, the tagged union from `groblin.ts`. -/
inductive Plan where
  | move (tgt : Target) (path : List (ℤ × ℤ))
  | eat (what : Nat)
  | wait
deriving DecidableEq, Repr

/-- The clamp performed by the base `NeedTracker.set`: pull the value
into `[minv, maxv]` (first the max bound, then the min bound). -/
def trackerClamp (minv maxv v : ℚ) : ℚ :=
  let v1 := if maxv < v then maxv else v
  if v1 < minv then minv else v1

/-- State of a `FoodTracker` (`groblin.ts`, final iteration).  The
`_exploreDirection.y` field of the source is never read, so only the
`x` component is carried. -/
structure FoodTracker where
  value : ℚ
  maxv : ℚ
  th : Thresholds
  state : FoodState
  planState : Plan
  exploreDirX : ℤ
  inaccessible : List Nat
deriving DecidableEq, Repr

namespace FoodTracker

/-- `FoodTracker.set`: clamp via the base class, then run the four
sequential hysteresis transition checks on the updated state. -/
def setVal (t : FoodTracker) (v : ℚ) : FoodTracker :=
  let c := trackerClamp 0 t.maxv v
  let s1 := if t.state = .full ∧ c < t.th.hungry then FoodState.hungry else t.state
  let s2 := if s1 = .hungry ∧ t.th.full < c then FoodState.full else s1
  let s3 := if s2 = .hungry ∧ c < t.th.starving then FoodState.starving else s2
  let s4 := if s3 = .starving ∧ t.th.hungry < c then FoodState.hungry else s3
  { t with value := c, state := s4 }

/-- `NeedTracker.add` specialised to the food tracker. -/
def addVal (t : FoodTracker) (d : ℚ) : FoodTracker :=
  t.setVal (t.value + d)

/-- `FoodTracker.tick`: the food value decays by `10 * delta`. -/
def tickDecay (t : FoodTracker) (δ : ℚ) : FoodTracker :=
  t.addVal (-δ * 10)

/-- `FoodTracker.urgency`. -/
def urgency (t : FoodTracker) : ℚ :=
  if t.state = .starving then 100 else if t.state = .hungry then 50 else 0

/-- `FoodTracker.clear`: forget the in-flight plan and the
inaccessible-food cache. -/
def clear (t : FoodTracker) : FoodTracker :=
  { t with planState := .wait, inaccessible := [] }

end FoodTracker

/-- State of a `RelaxTracker`. -/
structure RelaxTracker where
  value : ℚ
  maxv : ℚ
deriving DecidableEq, Repr

/-- `RelaxTracker.urgency`. -/
def RelaxTracker.urgency (t : RelaxTracker) : ℚ :=
  1 - t.value / t.maxv

/-- Which need a groblin's `priority` field names. -/
inductive NeedKey where
  | food
  | relax
deriving DecidableEq, Repr

/-- Component names of the ECS (`ecs.ts` `ComponentMap`). -/
inductive CompName where
  | positioned
  | collidable
  | movable
  | edible
  | groblin
deriving DecidableEq, Repr

/-- The `positioned` component: centre position and AABB extents. -/
structure Positioned where
  x : ℚ
  y : ℚ
  width : ℚ
  height : ℚ
deriving DecidableEq, Repr

/-- The `collidable` component. -/
structure Collidable where
  group : Nat
  collidesWith : List Nat
  passthrough : Passthrough
deriving DecidableEq, Repr

/-- The `movable` component; `landed` holds the id of the supporting
entity, or `none`. -/
structure MovableC where
  vx : ℚ
  vy : ℚ
  density : ℚ
  landed : Option Nat
deriving DecidableEq, Repr

/-- The `edible` component. -/
structure EdibleC where
  food : ℚ
deriving DecidableEq, Repr

/-- The `groblin` component.  `priority` is `none` when the TS field is
`undefined` (the object constructors always initialise it to `food`);
`crawling` holds the id of the climbable entity currently occupied. -/
structure GroblinC where
  food : FoodTracker
  relax : RelaxTracker
  plan : Plan
  priority : Option NeedKey
  crawling : Option Nat
  vision : ℚ
  speed : ℚ
deriving DecidableEq, Repr

/-- An entity: an open set of optional component slots. -/
structure Entity where
  positioned : Option Positioned
  collidable : Option Collidable
  movable : Option MovableC
  edible : Option EdibleC
  groblin : Option GroblinC
deriving DecidableEq, Repr

/-- `Entity.hasComponent`. -/
def Entity.has (e : Entity) : CompName → Bool
  | .positioned => e.positioned.isSome
  | .collidable => e.collidable.isSome
  | .movable => e.movable.isSome
  | .edible => e.edible.isSome
  | .groblin => e.groblin.isSome

/-- `hasComponents` from `ecs.ts`. -/
def Entity.hasAll (e : Entity) (cs : List CompName) : Bool :=
  cs.all e.has

/-- Cell keys of the spatial partition: the TS code uses the string
`"⌊x/GRID_SIZE⌋,⌊y/GRID_SIZE⌋"`; two positions produce equal strings
exactly when the floor pairs are equal. -/
def getCellKey (x y : ℚ) : ℤ × ℤ :=
  (ratFloor (x / GRID_SIZE), ratFloor (y / GRID_SIZE))

/-- Append-if-absent, the JS `Set.add` on an insertion-ordered list. -/
def setAdd {α : Type} [DecidableEq α] (l : List α) (a : α) : List α :=
  if a ∈ l then l else l ++ [a]

/-- Assoc-list update used for JS `Map.set`. -/
def mapSet {α β : Type} [DecidableEq α] (l : List (α × β)) (k : α) (v : β) :
    List (α × β) :=
  l.filter (fun p => p.1 ≠ k) ++ [(k, v)]

/-- Assoc-list lookup used for JS `Map.get`. -/
def mapGet {α β : Type} [DecidableEq α] (l : List (α × β)) (k : α) : Option β :=
  (l.find? (fun p => p.1 = k)).map (·.2)

/-- The whole mutable world state owned by `World` (including the
`Partitions` instance and the walkability grid).  `heap` is the JS
object graph: it keeps entries for entities that were removed from the
entity collection, because references to them stay alive. -/
structure World where
  heap : List (Nat × Entity)
  store : List Nat
  parts : List ((ℤ × ℤ) × Nat)
  reverseP : List (Nat × (ℤ × ℤ))
  moved : List (ℤ × ℤ)
  pairs : List (Nat × Nat)
  walkable : List (ℤ × ℤ)
  width : ℕ
  height : ℕ
  berryTimer : ℚ
  inited : Bool
  nextId : Nat
deriving DecidableEq, Repr

namespace World

/-- Dereference an entity id in the heap. -/
def lookup (w : World) (i : Nat) : Option Entity :=
  mapGet w.heap i

/-- Overwrite the heap entry of an existing entity (a JS field
mutation through a reference). -/
def heapSet (w : World) (i : Nat) (e : Entity) : World :=
  { w with heap := mapSet w.heap i e }

/-- Whether the entity behind `i` currently has the component. -/
def entHas (w : World) (i : Nat) (c : CompName) : Bool :=
  match w.lookup i with
  | some e => e.has c
  | none => false

/-- Whether the entity behind `i` has all the components. -/
def entHasAll (w : World) (i : Nat) (cs : List CompName) : Bool :=
  cs.all (w.entHas i)

/-- Candidate set of `EntityCollection.having`: for a `none` first
component (the empty-components call destructures to `undefined`) the
`SetMap.get` auto-creates and returns a fresh empty set. -/
def candidatesFor (w : World) : Option CompName → List Nat
  | none => []
  | some c => w.store.filter (fun i => w.entHas i c)

/-- `EntityCollection.having`: candidates from the first component's
index, filtered by the remaining required components, then by the
excluded ones.  Order is the store's insertion order. -/
def having (w : World) (cs : List CompName) (excl : List CompName) : List Nat :=
  ((w.candidatesFor cs.head?).filter
      (fun i => cs.tail.all (w.entHas i))).filter
    (fun i => ¬ excl.any (w.entHas i))

/-- Position of an entity, defaulting to the origin; every call site
dereferences entities that do carry `positioned`. -/
def posOf (w : World) (i : Nat) : Positioned :=
  match w.lookup i with
  | some e => e.positioned.getD ⟨0, 0, 0, 0⟩
  | none => ⟨0, 0, 0, 0⟩

/-- Update the `positioned` component of an entity. -/
def setPos (w : World) (i : Nat) (p : Positioned) : World :=
  match w.lookup i with
  | some e => w.heapSet i { e with positioned := some p }
  | none => w

/-- Update the `movable` component of an entity. -/
def setMov (w : World) (i : Nat) (m : MovableC) : World :=
  match w.lookup i with
  | some e => w.heapSet i { e with movable := some m }
  | none => w

/-- Update the `groblin` component of an entity. -/
def setGrob (w : World) (i : Nat) (g : GroblinC) : World :=
  match w.lookup i with
  | some e => w.heapSet i { e with groblin := some g }
  | none => w

/-- `Partitions.add`: file the entity under the cell of its current
position, remember the cell in the reverse map, and mark the cell as
moved when the entity is movable. -/
def partsAdd (w : World) (i : Nat) : World :=
  match w.lookup i with
  | none => w
  | some e =>
    let p := e.positioned.getD ⟨0, 0, 0, 0⟩
    let key := getCellKey p.x p.y
    { w with
      parts := setAdd w.parts (key, i)
      reverseP := mapSet w.reverseP i key
      moved := if e.movable.isSome then setAdd w.moved key else w.moved }

/-- `Partitions.remove`: unfile the entity from the cell of its current
position and drop its reverse-map entry. -/
def partsRemove (w : World) (i : Nat) : World :=
  let p := w.posOf i
  let key := getCellKey p.x p.y
  { w with
    parts := w.parts.filter (fun q => q ≠ (key, i))
    reverseP := w.reverseP.filter (fun q => q.1 ≠ i) }

/-- `Partitions.move`: always mark the cell of the entity's current
position as moved; when that cell differs from the stored one, unfile
the entity from the stored cell and re-add it. -/
def partsMove (w : World) (i : Nat) : World :=
  let p := w.posOf i
  let key := getCellKey p.x p.y
  let w1 := { w with moved := setAdd w.moved key }
  if mapGet w1.reverseP i ≠ some key then
    let w2 :=
      match mapGet w1.reverseP i with
      | some oldKey => { w1 with parts := w1.parts.filter (fun q => q ≠ (oldKey, i)) }
      | none => w1
    w2.partsAdd i
  else
    w1

/-- `Partitions.hasMoved`: is the cell of the entity's current position
flagged as moved. -/
def hasMoved (w : World) (i : Nat) : Bool :=
  let p := w.posOf i
  getCellKey p.x p.y ∈ w.moved

/-- Integer range `[lo, hi]` as a list, for the partition scan loops. -/
def intRange (lo hi : ℤ) : List ℤ :=
  (List.range (hi + 1 - lo).toNat).map (fun n => lo + n)

/-- Members of one partition cell, in insertion order. -/
def cellMembers (w : World) (key : ℤ × ℤ) : List Nat :=
  (w.parts.filter (fun q => q.1 = key)).map (·.2)

/-- `Partitions.neighborhood`: scan the covering cells and keep the
entities within true Euclidean distance `range` of `(x, y)` (the
`Math.sqrt` comparison is expressed on squares). -/
def neighborhood (w : World) (x y range : ℚ) : List Nat :=
  let c : ℤ := ratCeil (range / GRID_SIZE)
  let cells :=
    (intRange (-c) c).flatMap (fun dx =>
      (intRange (-c) c).map (fun dy => (dx, dy)))
  (cells.flatMap (fun d =>
      w.cellMembers (getCellKey (x + d.1 * GRID_SIZE) (y + d.2 * GRID_SIZE)))).filter
    (fun i =>
      let p := w.posOf i
      (x - p.x) * (x - p.x) + (y - p.y) * (y - p.y) ≤ range * range)

/-- `Partitions.neighborhoodsWithMovement`: one neighbourhood per moved
cell (centre of the cell, radius `GRID_SIZE`), then clear the moved
set. -/
def neighborhoodsWithMovement (w : World) : List (List Nat) × World :=
  (w.moved.map (fun k =>
      w.neighborhood (k.1 * GRID_SIZE + 1) (k.2 * GRID_SIZE + 1) GRID_SIZE),
    { w with moved := [] })

end World

/-- `intersection`: AABB overlap test with the `1e-5` vertical epsilon
("without the 1e-5, objects like berries will jitter between landed and
floating"). -/
def intersects (p1 p2 : Positioned) : Bool :=
  |p1.x - p2.x| ≤ (p1.width + p2.width) / 2 ∧
  |p1.y - p2.y| ≤ (p1.height + p2.height) / 2 + 1/100000

/-- The `passthrough` of an entity's collidable component. -/
def passOf (w : World) (i : Nat) : Option Passthrough :=
  match w.lookup i with
  | some e => e.collidable.map (·.passthrough)
  | none => none

/-- `collision`: mutual group admission plus AABB intersection. -/
def collisionB (w : World) (i j : Nat) : Bool :=
  match w.lookup i, w.lookup j with
  | some e1, some e2 =>
    match e1.collidable, e2.collidable, e1.positioned, e2.positioned with
    | some c1, some c2, some p1, some p2 =>
      c2.group ∈ c1.collidesWith ∧ c1.group ∈ c2.collidesWith ∧ intersects p1 p2
    | _, _, _, _ => false
  | _, _ => false

/-- `SetMap.add` on the colliding-pairs relation. -/
def insertPair (ps : List (Nat × Nat)) (a b : Nat) : List (Nat × Nat) :=
  setAdd ps (a, b)

/-- The pair cleanup run for an entity by `World.remove` and by the
landed-reset loop: `collidingPairs.get(i).forEach(o => remove(o, i))`
followed by `collidingPairs.delete(i)`.  The partner set is read from
the original relation, as in the source. -/
def pairsDropEntity (ps : List (Nat × Nat)) (i : Nat) : List (Nat × Nat) :=
  (ps.filter (fun q => ¬(q.2 = i ∧ (i, q.1) ∈ ps))).filter (fun q => q.1 ≠ i)

namespace World

/-- `World.add`: register in the entity collection (and component
index), and file into the spatial partition when positioned and
collidable. -/
def addEntity (w : World) (i : Nat) (e : Entity) : World :=
  let w1 := { w.heapSet i e with store := setAdd w.store i }
  if e.positioned.isSome ∧ e.collidable.isSome then w1.partsAdd i else w1

/-- `World.remove`: unregister from the entity collection, then (for
positioned collidables) scrub the colliding-pairs relation and unfile
from the spatial partition.  The heap entry survives, as the JS object
does. -/
def removeEntity (w : World) (i : Nat) : World :=
  let w1 := { w with store := w.store.filter (fun j => j ≠ i) }
  if w1.entHasAll i [.positioned, .collidable] then
    let w2 := { w1 with pairs := pairsDropEntity w1.pairs i }
    w2.partsRemove i
  else w1

/-- Is a solid, non-movable collidable entity stored at exactly this
position?  `updateGrid` keys its `allBlocks` map by the stringified
coordinates, so the lookup is exact coordinate equality. -/
def blockAt (w : World) (x y : ℚ) : Bool :=
  (w.having [.collidable, .positioned] [.movable]).any (fun i =>
    match w.lookup i with
    | some e =>
      match e.collidable, e.positioned with
      | some c, some p => c.passthrough = .solid ∧ p.x = x ∧ p.y = y
      | _, _ => false
    | none => false)

/-- Like `blockAt` for climbable (cave) entities. -/
def caveAt (w : World) (x y : ℚ) : Bool :=
  (w.having [.collidable, .positioned] [.movable]).any (fun i =>
    match w.lookup i with
    | some e =>
      match e.collidable, e.positioned with
      | some c, some p => c.passthrough = .climbable ∧ p.x = x ∧ p.y = y
      | _, _ => false
    | none => false)

/-- `PF.Grid.isInside` for the `(width+1) × (height+1)` grid the world
allocates. -/
def isInside (w : World) (x y : ℤ) : Bool :=
  0 ≤ x ∧ x < (w.width : ℤ) + 1 ∧ 0 ≤ y ∧ y < (w.height : ℤ) + 1

/-- Write one walkability bit (`setWalkableAt`). -/
def setWalk (walk : List (ℤ × ℤ)) (u : ℤ × ℤ) (b : Bool) : List (ℤ × ℤ) :=
  if b then setAdd walk u else walk.filter (fun q => q ≠ u)

/-- The per-tile branch chain of `updateGrid`.  The terrain maps are
those of `w` (they are built once before the loop). -/
def gridUpdateCell (w : World) (walk : List (ℤ × ℤ)) (u : ℤ × ℤ) :
    List (ℤ × ℤ) :=
  if w.blockAt u.1 u.2 then setWalk walk u false
  else if w.caveAt u.1 u.2 then setWalk walk u true
  else if w.blockAt u.1 (u.2 + 1) ∨ w.caveAt u.1 (u.2 + 1) then setWalk walk u true
  else if w.blockAt u.1 (u.2 + 2) ∧ (w.blockAt (u.1 + 1) (u.2 + 1) ∨ w.blockAt (u.1 - 1) (u.2 + 1)) then
    setWalk walk u true
  else if w.isInside u.1 u.2 then setWalk walk u false
  else walk

/-- The "force the groblin to reassess its path" loop of `updateGrid`:
clear the priority need's tracker (a no-op for the relax tracker). -/
def clearPriorityNeed (w : World) (i : Nat) : World :=
  match w.lookup i with
  | some e =>
    match e.groblin with
    | some g =>
      match g.priority with
      | some .food => w.setGrob i { g with food := g.food.clear }
      | some .relax => w
      | none => w
    | none => w
  | none => w

/-- `World.updateGrid`: recompute the walkability bits of the updated
tiles, clear every groblin's active plan, and rebuild the spatial
partition from scratch. -/
def updateGrid (w : World) (updated : List (ℤ × ℤ)) : World :=
  let w1 := { w with walkable := updated.foldl (gridUpdateCell w) w.walkable }
  let w2 := (w1.having [.groblin] []).foldl clearPriorityNeed w1
  let w3 := { w2 with parts := [], reverseP := [], moved := [] }
  (w3.having [.collidable, .positioned] []).foldl (fun ww i => ww.partsAdd i) w3

end World

/-- The per-entity body of the gravity loop (`applyGravity` closure in
`World.tick`): accelerate only entities that are not landed, are below
terminal velocity, and are not crawling groblins.  The result of the
addition is not clamped. -/
def applyGravity (δ : ℚ) (w : World) (i : Nat) : World :=
  match w.lookup i with
  | some e =>
    match e.movable with
    | some m =>
      if m.landed = none ∧ m.vy < TERMINAL_VELOCITY ∧
          e.groblin.all (fun g => g.crawling = none) then
        w.setMov i { m with vy := m.vy + δ * GRAVITY * m.density }
      else w
    | none => w
  | none => w

/-- `collideWithBlock`: axis-of-least-penetration response of a movable
against a solid block, mutating the movable's velocity and position
(and, on a top-side contact, its `landed` reference). -/
def collideWithBlock (δ : ℚ) (w : World) (im ib : Nat) : World :=
  match w.lookup im with
  | none => w
  | some em =>
    match em.positioned, em.movable with
    | some mp, some mm =>
      let bp := w.posOf ib
      let dx := mp.x - bp.x
      let dy := mp.y - bp.y
      let overlapX := (mp.width + bp.width) / 2 - |dx|
      let overlapY := (mp.height + bp.height) / 2 - |dy|
      if overlapY ≤ overlapX then
        if 0 < dy then
          let vy := max mm.vy (mm.vy * -WALL_ELASTICITY)
          let y := max mp.y (bp.y + bp.height / 2 + mp.height / 2)
          w.heapSet im
            { em with positioned := some { mp with y := y }, movable := some { mm with vy := vy } }
        else
          let vy := min 0 mm.vy
          let vx1 := mm.vx - DRAG * δ * jsSign mm.vx
          let vx := if |vx1| < DRAG * δ then 0 else vx1
          let y := min mp.y (bp.y - bp.height / 2 - mp.height / 2 + 1/1000)
          w.heapSet im
            { em with positioned := some { mp with y := y },
                      movable := some { mm with vx := vx, vy := vy, landed := some ib } }
      else
        if 0 < dx then
          let vx := max mm.vx (mm.vx * -WALL_ELASTICITY)
          let x := max mp.x (bp.x + bp.width / 2 + mp.width / 2 + vx * δ)
          w.heapSet im
            { em with positioned := some { mp with x := x }, movable := some { mm with vx := vx } }
        else
          let vx := min mm.vx (mm.vx * -WALL_ELASTICITY)
          let x := min mp.x (bp.x - bp.width / 2 - mp.width / 2 + vx * δ)
          w.heapSet im
            { em with positioned := some { mp with x := x }, movable := some { mm with vx := vx } }
    | _, _ => w

/-- Set a groblin's `crawling` reference. -/
def setCrawling (w : World) (i : Nat) (c : Option Nat) : World :=
  match w.lookup i with
  | some e =>
    match e.groblin with
    | some g => w.setGrob i { g with crawling := c }
    | none => w
  | none => w

/-- The `i < j` pair enumeration order of the nested collision loops. -/
def orderedPairs : List Nat → List (Nat × Nat)
  | [] => []
  | a :: rest => rest.map (fun b => (a, b)) ++ orderedPairs rest

/-- The `movable`-vs-solid sub-step of the narrow phase
(`if (hasComponents(obj, ["movable"]) && other.passthrough === "solid")
collideWithBlock(obj, other)`). -/
def blockRespStep (δ : ℚ) (w : World) (a b : Nat) : World :=
  if w.entHas a .movable ∧ passOf w b = some .solid then collideWithBlock δ w a b else w

/-- The groblin-vs-climbable sub-step of the narrow phase
(`if (hasComponents(obj, ["groblin"]) && other.passthrough ===
"climbable") obj.crawling = other`). -/
def crawlRespStep (w : World) (a b : Nat) : World :=
  if w.entHas a .groblin ∧ passOf w b = some .climbable then setCrawling w a (some b) else w

/-- One pair check of the narrow phase: record the collision in both
directions, run block response for movable-vs-solid in both roles, and
mark groblins crawling on climbable contact.  Each sub-step reads the
state left by the previous one, as the sequential JS statements do. -/
def collideStep (δ : ℚ) (w : World) (p : Nat × Nat) : World :=
  if collisionB w p.1 p.2 then
    crawlRespStep
      (crawlRespStep
        (blockRespStep δ
          (blockRespStep δ
            { w with pairs := insertPair (insertPair w.pairs p.1 p.2) p.2 p.1 }
            p.1 p.2)
          p.2 p.1)
        p.1 p.2)
      p.2 p.1
  else w

/-- The per-entity body of the landed-reset loop: "only reset landed if
the object has moved" (as detected per-cell by the partition). -/
def resetLandedStep (w : World) (i : Nat) : World :=
  if w.hasMoved i then
    let w1 :=
      match w.lookup i with
      | some e =>
        match e.movable with
        | some m => w.setMov i { m with landed := none }
        | none => w
      | none => w
    { w1 with pairs := pairsDropEntity w1.pairs i }
  else w

/-- The per-entity body of the integration loop: advance the position
by `velocity * delta` and notify the partition, skipping entities at
rest. -/
def integrateStep (δ : ℚ) (w : World) (i : Nat) : World :=
  match w.lookup i with
  | some e =>
    match e.positioned, e.movable with
    | some p, some m =>
      if m.vx ≠ 0 ∨ m.vy ≠ 0 then
        ((w.setPos i { p with x := p.x + m.vx * δ, y := p.y + m.vy * δ }).partsMove i)
      else w
    | _, _ => w
  | none => w

/-- The read-only snapshot of the walkability grid handed to the path
searches (`view.grid`; the searches clone it and never mutate the
original). -/
structure GridT where
  walkable : List (ℤ × ℤ)
  width : ℕ
  height : ℕ
deriving DecidableEq, Repr

/-- The world's grid as a snapshot. -/
def World.grid (w : World) : GridT :=
  ⟨w.walkable, w.width, w.height⟩

/-- Opaque model of `PF.AStarFinder.findPath` from the external
`pathfinding` library: a deterministic function of the rounded start,
the rounded goal and the grid snapshot. -/
def AStarFn : Type := ℤ → ℤ → ℤ → ℤ → GridT → List (ℤ × ℤ)

/-- Opaque model of the `explore` frontier search of `groblin.ts`
(it walks the external library's node graph): a deterministic function
of the planner's position and vision, the grid snapshot and the
explore direction. -/
def ExploreFn : Type := ℚ → ℚ → ℚ → GridT → ℤ → List (ℤ × ℤ)

/-- `route` from `groblin.ts`: invoke the A* finder on the rounded
planner and target positions. -/
def route (astar : AStarFn) (px py tx ty : ℚ) (g : GridT) : List (ℤ × ℤ) :=
  astar (jsRound px) (jsRound py) (jsRound tx) (jsRound ty) g

/-- The localized world view handed to a need tracker's `plan`: the
visible entities (a fresh `EntityCollection` in neighbourhood order)
and the colliding-pairs relation restricted to visible entities.  The
grid rides along unchanged. -/
structure ViewT where
  ids : List Nat
  pairs : List (Nat × Nat)
deriving DecidableEq, Repr

/-- `World.getView`. -/
def World.getView (w : World) (i : Nat) (range : ℚ) : ViewT :=
  let p := w.posOf i
  let visible := w.neighborhood p.x p.y range
  { ids := visible
    pairs := w.pairs.filter (fun q => q.1 ∈ visible ∧ q.2 ∈ visible) }

/-- `EntityCollection.having` on the view's entity collection; the
candidate order is the neighbourhood insertion order. -/
def viewHaving (w : World) (v : ViewT) (cs excl : List CompName) : List Nat :=
  ((match cs.head? with
    | none => []
    | some c => v.ids.filter (fun i => w.entHas i c)).filter
      (fun i => cs.tail.all (w.entHas i))).filter
    (fun i => ¬ excl.any (w.entHas i))

/-- Stable insertion of one element into an ascending list: the model
of one step of the stable JS `Array.sort`. -/
def insertByKey {α : Type} (key : α → ℚ) (a : α) : List α → List α
  | [] => [a]
  | b :: rest => if key b < key a then b :: insertByKey key a rest else a :: b :: rest

/-- Stable ascending sort by a rational key, the observable behaviour
of JS `Array.sort` with the difference comparator used in
`FoodTracker.plan`. -/
def sortByKey {α : Type} (key : α → ℚ) : List α → List α
  | [] => []
  | a :: rest => insertByKey key a (sortByKey key rest)

/-- Resolve a plan target to a position: an entity target reads the
referenced object's live coordinates. -/
def World.targetPos (w : World) : Target → ℚ × ℚ
  | .ent i => let p := w.posOf i; (p.x, p.y)
  | .pt x y => (x, y)

/-- The `landed` reference of an entity's movable component. -/
def World.landedOf (w : World) (i : Nat) : Option Nat :=
  match w.lookup i with
  | some e =>
    match e.movable with
    | some m => m.landed
    | none => none
  | none => none

/-- `follow` from `groblin.ts`: pop the leading waypoint once the
planner is within `0.5` of it on both axes.  The source reads
`path[0]` unconditionally and would throw on an empty path; no call
site modelled in the theorems below reaches `follow` with an empty
path, and the embedding leaves such a plan unchanged. -/
def follow (px py : ℚ) : Plan → Plan
  | .move tgt (p0 :: rest) =>
    if |(p0.1 : ℚ) - px| < 1/2 ∧ |(p0.2 : ℚ) - py| < 1/2 then
      .move tgt rest
    else
      .move tgt (p0 :: rest)
  | pl => pl

/-- Does the tracker's current plan already target this food entity
(`_plan.to.x === food.x && _plan.to.y === food.y`, live positions)? -/
def isCurTarget (w : World) (t : FoodTracker) (f : Nat) : Bool :=
  match t.planState with
  | .move tgt _ =>
    let fp := w.posOf f
    let tp := w.targetPos tgt
    tp.1 = fp.x ∧ tp.2 = fp.y
  | _ => false

/-- The candidate loop of `FoodTracker.plan`: eat a touching food,
keep following a plan that already targets the food, otherwise try a
route; on an empty route, cache the food as inaccessible only when
the planner is grounded (landed or crawling), and move on to the next
candidate.  Returns the updated tracker and the chosen plan, if any. -/
def foodLoop (astar : AStarFn) (w : World) (v : ViewT) (gid : Nat)
    (grounded : Bool) (px py : ℚ) :
    List Nat → FoodTracker → FoodTracker × Option Plan
  | [], t => (t, none)
  | f :: rest, t =>
    if (gid, f) ∈ v.pairs then
      let pl := Plan.eat f
      ({ t with planState := pl }, some pl)
    else if isCurTarget w t f then
      let pl := follow px py t.planState
      ({ t with planState := pl }, some pl)
    else
      let fp := w.posOf f
      let path := route astar px py fp.x fp.y w.grid
      if path ≠ [] then
        let pl := Plan.move (.ent f) path
        ({ t with planState := pl }, some pl)
      else
        foodLoop astar w v gid grounded px py rest
          (if grounded then { t with inaccessible := setAdd t.inaccessible f } else t)

/-- The tail of `FoodTracker.plan` once no candidate produced a plan:
advance the current move plan if it still has waypoints, else fall
back to waiting. -/
def foodFallThrough (px py : ℚ) (t : FoodTracker) : FoodTracker × Plan :=
  match t.planState with
  | .move tgt (p0 :: rest) =>
    let pl := follow px py (.move tgt (p0 :: rest))
    ({ t with planState := pl }, pl)
  | _ => ({ t with planState := .wait }, .wait)

/-- The exploration stage of `FoodTracker.plan`: only a grounded
planner with no in-progress distant move plan explores; a path of
length at most one flips the explore direction and falls through. -/
def foodPlanAfter (exploreFn : ExploreFn) (w : World) (grounded : Bool)
    (px py vision : ℚ) (t : FoodTracker) : FoodTracker × Plan :=
  let trigger : Bool :=
    grounded &&
    (match t.planState with
     | .move tgt _ =>
       let tp := w.targetPos tgt
       decide ((tp.1 - px) * (tp.1 - px) + (tp.2 - py) * (tp.2 - py) < 1/4)
     | _ => true)
  if trigger then
    let path := exploreFn px py vision w.grid t.exploreDirX
    if 1 < path.length then
      let lastP := path.getLast?.getD (0, 0)
      let pl := Plan.move (.pt lastP.1 lastP.2) path
      ({ t with planState := pl }, pl)
    else
      foodFallThrough px py { t with exploreDirX := -t.exploreDirX }
  else
    foodFallThrough px py t

/-- `FoodTracker.plan`: rank the visible landed foods not cached as
inaccessible by horizontal distance, run the candidate loop, then the
exploration and fall-through stages. -/
def FoodTracker.planFn (astar : AStarFn) (exploreFn : ExploreFn) (w : World)
    (v : ViewT) (gid : Nat) (g : GroblinC) (px py : ℚ)
    (landed : Option Nat) : FoodTracker × Plan :=
  let t := g.food
  let foods :=
    sortByKey (fun f => |(w.posOf f).x - px|)
      ((viewHaving w v [.edible, .positioned, .movable, .collidable] []).filter
        (fun f => w.landedOf f ≠ none ∧ f ∉ t.inaccessible))
  let grounded := landed ≠ none ∨ g.crawling ≠ none
  match foodLoop astar w v gid grounded px py foods t with
  | (t1, some pl) => (t1, pl)
  | (t1, none) => foodPlanAfter exploreFn w grounded px py g.vision t1

/-- Urgency of the tracker the groblin's priority currently names.
The `none` branch is never consulted: the needs loop short-circuits on
an unset priority exactly like the JS `!groblin.priority ||`. -/
def priorityUrgency (g : GroblinC) : ℚ :=
  match g.priority with
  | some .food => g.food.urgency
  | some .relax => g.relax.urgency
  | none => 0

/-- The needs loop of `groblinSetPlan`: tick each tracker in insertion
order (`food`, then `relax`) and hand the priority to any strictly
more urgent need, clearing the tracker that takes over. -/
def needsTickAndPriority (δ : ℚ) (g : GroblinC) : GroblinC :=
  let g1 := { g with food := g.food.tickDecay δ }
  let g2 :=
    if g1.priority = none ∨
        (some NeedKey.food ≠ g1.priority ∧ priorityUrgency g1 < g1.food.urgency) then
      { g1 with priority := some .food, food := g1.food.clear }
    else g1
  if g2.priority = none ∨
      (some NeedKey.relax ≠ g2.priority ∧ priorityUrgency g2 < g2.relax.urgency) then
    { g2 with priority := some .relax }
  else g2

/-- `groblinMove`: translate the plan's next waypoint into velocity
updates (horizontal walking, cave crawling, or a jump pop). -/
def groblinMove (δ : ℚ) (w : World) (i : Nat) (path : List (ℤ × ℤ)) : World :=
  match path with
  | [] => w
  | p0 :: _ =>
    match w.lookup i with
    | some e =>
      match e.positioned, e.movable, e.groblin with
      | some p, some m, some g =>
        let xDiff : ℚ := (p0.1 : ℚ) - p.x
        let yDiff : ℚ := (p0.2 : ℚ) - p.y
        let m1 :=
          if m.vy ≤ 0 ∨ g.crawling ≠ none then
            if g.speed * δ < |xDiff| then { m with vx := g.speed * jsSign xDiff }
            else { m with vx := xDiff / δ }
          else m
        let m2 :=
          if g.crawling ≠ none then
            if g.speed * δ < |yDiff| then { m1 with vy := g.speed * jsSign yDiff }
            else { m1 with vy := yDiff / δ }
          else if yDiff < -(1/2) ∧ m1.landed ≠ none then { m1 with vy := -JUMP_POP }
          else m1
        w.setMov i m2
      | _, _, _ => w
    | none => w

/-- The needs/priority/plan part of the per-groblin tick body: tick
the needs, arbitrate the priority, compute the view and ask the
priority need's tracker for a plan, writing the tracker state and the
plan back into the groblin.  Returns `none` when the entity lacks the
components, in which case the whole step is a no-op. -/
def groblinPlanned (astar : AStarFn) (exploreFn : ExploreFn) (δ : ℚ)
    (w : World) (i : Nat) : Option (World × Plan) :=
  match w.lookup i with
  | some e =>
    match e.positioned, e.movable, e.groblin with
    | some p, some m, some g0 =>
      let g1 := needsTickAndPriority δ g0
      let v := w.getView i g1.vision
      match g1.priority with
      | some .food =>
        let tp := FoodTracker.planFn astar exploreFn w v i g1 p.x p.y m.landed
        some (w.setGrob i { g1 with food := tp.1, plan := tp.2 }, tp.2)
      | some .relax => some (w.setGrob i { g1 with plan := .wait }, Plan.wait)
      | none => some (w.setGrob i { g1 with plan := .wait }, Plan.wait)
    | _, _, _ => none
  | none => none

/-- The `move`-plan execution part of the per-groblin tick body. -/
def groblinMoveStage (δ : ℚ) (w : World) (i : Nat) (pl : Plan) : World :=
  match pl with
  | .move _ path => groblinMove δ w i path
  | _ => w

/-- The `eat`-plan execution part of the per-groblin tick body: if the
eaten entity is still an edible of the store, add its food value to
the food need and remove it from the world. -/
def groblinEatStage (w : World) (i : Nat) (pl : Plan) : World :=
  match pl with
  | .eat f =>
    if f ∈ w.having [.edible] [] then
      let foodVal :=
        match w.lookup f with
        | some ef => (ef.edible.getD ⟨0⟩).food
        | none => 0
      let w2a :=
        match w.lookup i with
        | some ei =>
          match ei.groblin with
          | some gi => w.setGrob i { gi with food := gi.food.addVal foodVal }
          | none => w
        | none => w
      w2a.removeEntity f
    else w
  | _ => w

/-- The per-groblin body of the tick loop: tick needs and priority,
compute the view and the plan, execute a move or eat plan, and reset
`crawling` for the next collision pass. -/
def groblinStep (astar : AStarFn) (exploreFn : ExploreFn) (δ : ℚ)
    (w : World) (i : Nat) : World :=
  match groblinPlanned astar exploreFn δ w i with
  | none => w
  | some wpl =>
    setCrawling (groblinEatStage (groblinMoveStage δ wpl.1 i wpl.2) i wpl.2) i none

/-- A freshly spawned berry (`berry({...})` in `World.tick` plus the
defaults added by the `berry` constructor in `objects.ts`). -/
def berryEnt (x : ℚ) : Entity :=
  { positioned := some ⟨x, 2, 9/10, 9/10⟩
    collidable := some ⟨0, [0, 1], .empty⟩
    movable := some ⟨0, 0, 1, none⟩
    edible := some ⟨20⟩
    groblin := none }

/-- The berry-timer stage of `World.tick`; `rand` is the value drawn
from `Math.random()` when a berry is spawned. -/
def spawnBerry (w : World) (δ rand : ℚ) : World :=
  let timer := w.berryTimer - δ
  if timer ≤ 0 then
    let x : ℚ := (jsRound (2 + rand * ((w.width : ℚ) - 5)) : ℤ)
    let w1 := { w with berryTimer := BERRY_TIMER_MAX, nextId := w.nextId + 1 }
    w1.addEntity w.nextId (berryEnt x)
  else
    { w with berryTimer := timer }

/-- The coordinate list of the first-tick full grid rebuild:
`0 ≤ x < width`, `0 ≤ y < height`, x-major. -/
def allCoords (w : World) : List (ℤ × ℤ) :=
  (List.range w.width).flatMap (fun x =>
    (List.range w.height).map (fun y => (Int.ofNat x, Int.ofNat y)))

/-- Stages of `World.tick` before the landed-reset loop:
initialization, berry spawning, gravity, and the groblin loop. -/
def World.preResetState (astar : AStarFn) (exploreFn : ExploreFn) (w : World)
    (δ rand : ℚ) : World :=
  let w1 := if ¬w.inited then ({ w with inited := true }).updateGrid (allCoords w) else w
  let w2 := spawnBerry w1 δ rand
  let w3 := (w2.having [.movable] []).foldl (applyGravity δ) w2
  (w3.having [.groblin, .positioned, .movable, .collidable] []).foldl
    (groblinStep astar exploreFn δ) w3

/-- The landed-reset loop of `World.tick` ("only reset landed if the
object has moved"). -/
def World.resetPhase (w : World) : World :=
  (w.having [.movable, .positioned, .collidable] []).foldl resetLandedStep w

/-- Stages of `World.tick` from the landed-reset loop on: narrow-phase
collision over the moved neighbourhoods, then integration. -/
def World.postResetState (w : World) (δ : ℚ) : World :=
  let w5 := w.resetPhase
  let nsw := w5.neighborhoodsWithMovement
  let w7 := nsw.1.foldl (fun ww n => (orderedPairs n).foldl (collideStep δ) ww) nsw.2
  (w7.having [.movable, .positioned, .collidable] []).foldl (integrateStep δ) w7

/-- `World.tick`: initialization, berry spawning, gravity, groblin
planning and plan execution, landed reset, narrow-phase collision over
the moved neighbourhoods, and integration. -/
def World.tick (astar : AStarFn) (exploreFn : ExploreFn) (w : World)
    (δ rand : ℚ) : World :=
  (w.preResetState astar exploreFn δ rand).postResetState δ

/-- The `World` constructor: empty stores, all grid tiles not
walkable, the berry timer primed. -/
def mkWorld (width height : ℕ) : World :=
  { heap := [], store := [], parts := [], reverseP := [], moved := [], pairs := []
    walkable := [], width := width, height := height
    berryTimer := BERRY_TIMER_MAX, inited := false, nextId := 0 }

/-- A `block({x, y})` entity from `objects.ts`. -/
def blockEnt (x y : ℚ) : Entity :=
  { positioned := some ⟨x, y, 1, 1⟩
    collidable := some ⟨1, [0], .solid⟩
    movable := none, edible := none, groblin := none }

/-- A `cave({x, y})` entity from `objects.ts`. -/
def caveEnt (x y : ℚ) : Entity :=
  { positioned := some ⟨x, y, 1, 1⟩
    collidable := some ⟨1, [0], .climbable⟩
    movable := none, edible := none, groblin := none }

/-- A `FoodTracker` as freshly constructed.  The base `NeedTracker`
constructor calls the virtual `set` before the subclass field
initializers have run, so no hysteresis transition fires: the value is
only clamped and the state starts `full`. -/
def mkFoodTracker (initial maxv : ℚ) (th : Thresholds) : FoodTracker :=
  { value := trackerClamp 0 maxv initial, maxv := maxv, th := th, state := .full
    planState := .wait, exploreDirX := -1, inaccessible := [] }

/-- A `RelaxTracker` as freshly constructed. -/
def mkRelaxTracker (initial maxv : ℚ) : RelaxTracker :=
  { value := trackerClamp 0 maxv initial, maxv := maxv }

/-- A groblin entity as built by the `groblin` constructor of
`objects.ts` (priority starts at `food`, plan at `wait`) with the
geometry and trackers the application passes. -/
def groblinEnt (x y width height vision speed : ℚ)
    (food : FoodTracker) (relax : RelaxTracker) : Entity :=
  { positioned := some ⟨x, y, width, height⟩
    collidable := some ⟨0, [0, 1], .empty⟩
    movable := some ⟨0, 0, 1, none⟩
    edible := none
    groblin := some ⟨food, relax, .wait, some .food, none, vision, speed⟩ }

/-- Symmetry of the colliding-pairs relation. -/
def PairsSymm (ps : List (Nat × Nat)) : Prop :=
  ∀ a b : Nat, (a, b) ∈ ps ↔ (b, a) ∈ ps

/-- The walkability predicate stated by the specification ("a tile is
walkable iff it is not itself occupied by a solid entity AND (the tile
directly below it holds a solid or climbable entity, OR the tile
itself holds climbable terrain, OR there is a solid entity at
`(x, y+2)` together with one at `(x-1, y+1)` or `(x+1, y+1)`)"),
written from the spec's words for comparison against the grid the
code builds. -/
def specWalkable (w : World) (x y : ℤ) : Bool :=
  ¬ w.blockAt x y ∧
    ((w.blockAt x (y + 1) ∨ w.caveAt x (y + 1)) ∨
      w.caveAt x y ∨
      (w.blockAt x (y + 2) ∧ (w.blockAt (x - 1) (y + 1) ∨ w.blockAt (x + 1) (y + 1))))

/-- The current plan of a groblin entity. -/
def planOf (w : World) (i : Nat) : Option Plan :=
  match w.lookup i with
  | some e => e.groblin.map (·.plan)
  | none => none

/-- The current food-need value of a groblin entity. -/
def foodValOf (w : World) (i : Nat) : Option ℚ :=
  match w.lookup i with
  | some e => e.groblin.map (·.food.value)
  | none => none

/-- Placeholder instantiation of the A* oracle for concrete scenarios
whose control flow never consults the route search. -/
def trivialAstar : AStarFn := fun _ _ _ _ _ => []

/-- Placeholder instantiation of the exploration oracle for concrete
scenarios whose control flow never consults the frontier search. -/
def trivialExplore : ExploreFn := fun _ _ _ _ _ => []

/-- An edible entity at an arbitrary position (the application spawns
these with the `berry` constructor defaults). -/
def edibleEnt (x y : ℚ) : Entity :=
  { positioned := some ⟨x, y, 9/10, 9/10⟩
    collidable := some ⟨0, [0, 1], .empty⟩
    movable := some ⟨0, 0, 1, none⟩
    edible := some ⟨20⟩
    groblin := none }

/-- The food tracker the application constructs:
`new FoodTracker(50, 100, {starving: 10, hungry: 30, full: 70})`. -/
def appFoodTracker : FoodTracker := mkFoodTracker 50 100 ⟨10, 30, 70⟩

/-- The relax tracker the application constructs:
`new RelaxTracker(50, 100)`. -/
def appRelaxTracker : RelaxTracker := mkRelaxTracker 50 100

/-- Scenario fixture: a fresh world holding one agent at `(10, 5)` and
one edible at `(10, 5)` (the claim-C4 starting state). -/
def c4start : World :=
  ((mkWorld 2 2).addEntity 0
      (groblinEnt 10 5 (9/10) 1 2 1 appFoodTracker appRelaxTracker)).addEntity 1
    (edibleEnt 10 5)

/-- A hungry food tracker (value 25, thresholds 10/30/70) for the
prepared consuming-tick scenario. -/
def hungryTracker : FoodTracker :=
  { value := 25, maxv := 100, th := ⟨10, 30, 70⟩, state := .hungry
    planState := .wait, exploreDirX := -1, inaccessible := [] }

/-- A groblin resting on the block with id 2, hungry, at `(10, 5.001)`. -/
def grobResting : Entity :=
  { positioned := some ⟨10, 5001/1000, 9/10, 1⟩
    collidable := some ⟨0, [0, 1], .empty⟩
    movable := some ⟨0, 0, 1, some 2⟩
    edible := none
    groblin := some ⟨hungryTracker, appRelaxTracker, .wait, some .food, none, 2, 1⟩ }

/-- A berry resting on the block with id 2, at `(10, 5.051)`. -/
def berryResting : Entity :=
  { positioned := some ⟨10, 5051/1000, 9/10, 9/10⟩
    collidable := some ⟨0, [0, 1], .empty⟩
    movable := some ⟨0, 0, 1, some 2⟩
    edible := some ⟨20⟩
    groblin := none }

/-- Scenario fixture: the prepared consuming-tick state — agent 0 and
berry 1 both landed on block 2, touching, their contact already
recorded by the previous tick's collision pass, nothing moving. -/
def c4ready : World :=
  { heap := [(0, grobResting), (1, berryResting), (2, blockEnt 10 6)]
    store := [0, 1, 2]
    parts := [((5, 2), 0), ((5, 2), 1), ((5, 3), 2)]
    reverseP := [(0, (5, 2)), (1, (5, 2)), (2, (5, 3))]
    moved := []
    pairs := [(0, 1), (1, 0)]
    walkable := []
    width := 20, height := 20
    berryTimer := 1/10, inited := true, nextId := 3 }

/-- A berry resting on the block with id 0, at `(4, 5.051)`. -/
def berryOnBlock0 : Entity :=
  { positioned := some ⟨4, 5051/1000, 9/10, 9/10⟩
    collidable := some ⟨0, [0, 1], .empty⟩
    movable := some ⟨0, 0, 1, some 0⟩
    edible := some ⟨20⟩
    groblin := none }

/-- Scenario fixture: a single berry resting motionless on a block,
with no moved cells pending — the landing-stability witness state. -/
def c1rest : World :=
  { heap := [(0, blockEnt 4 6), (1, berryOnBlock0)]
    store := [0, 1]
    parts := [((2, 3), 0), ((2, 2), 1)]
    reverseP := [(0, (2, 3)), (1, (2, 2))]
    moved := []
    pairs := [(0, 1), (1, 0)]
    walkable := []
    width := 20, height := 20
    berryTimer := 1/10, inited := true, nextId := 2 }

/-- A movable collidable entity at `(5, 5)` used by the partition-move
scenario. -/
def moverAt5 : Entity :=
  { positioned := some ⟨5, 5, 1, 1⟩
    collidable := some ⟨0, [0], .empty⟩
    movable := some ⟨0, 0, 1, none⟩
    edible := none, groblin := none }

/-- Scenario fixture: entity 0 sits at `(5, 5)` (cell `(2, 2)`) while
the partition still files it under cell `(0, 0)`; the moved set is
empty, as after a `cellsWithMovement` drain. -/
def c3stale : World :=
  { heap := [(0, moverAt5)], store := [0]
    parts := [((0, 0), 0)], reverseP := [(0, (0, 0))], moved := []
    pairs := [], walkable := [], width := 10, height := 10
    berryTimer := 1/10, inited := true, nextId := 1 }

/-- Scenario fixture: an empty initialized world whose berry timer is
about to elapse. -/
def c7empty : World := { mkWorld 10 5 with inited := true }

/-- A movable entity just below terminal velocity. -/
def fastFaller : Entity :=
  { positioned := some ⟨5, 5, 9/10, 9/10⟩
    collidable := some ⟨0, [0, 1], .empty⟩
    movable := some ⟨0, 999/100, 1, none⟩
    edible := some ⟨20⟩
    groblin := none }

/-- Scenario fixture: a world holding the near-terminal-velocity
faller. -/
def c8fast : World :=
  { heap := [(0, fastFaller)], store := [0]
    parts := [((2, 2), 0)], reverseP := [(0, (2, 2))], moved := [(2, 2)]
    pairs := [], walkable := [], width := 10, height := 10
    berryTimer := 1/10, inited := true, nextId := 1 }

/-- Scenario fixture: a `2 × 2` world (so a `3 × 3` grid) with one cave
entity on the grid's border column `x = width`. -/
def c2cave : World := (mkWorld 2 2).addEntity 0 (caveEnt 2 1)

/-- Scenario fixture: a `3 × 3` world with one block at `(1, 1)`, for
the interior walkability witness. -/
def c2block : World := (mkWorld 3 3).addEntity 0 (blockEnt 1 1)

/-- The vertical velocity of an entity's movable component. -/
def vyOf (w : World) (i : Nat) : Option ℚ :=
  match w.lookup i with
  | some e => e.movable.map (·.vy)
  | none => none

/- ------------------------------------------------------------------
Theorems.  Shared helper lemmas first, then one theorem (plus
counterexample and witness where required) per claim.
------------------------------------------------------------------ -/

theorem mem_setAdd {α : Type} [DecidableEq α] (l : List α) (a b : α) :
    b ∈ setAdd l a ↔ b ∈ l ∨ b = a := by
  unfold setAdd
  split
  · constructor
    · exact fun h => Or.inl h
    · rintro (h | rfl) <;> assumption
  · simp [or_comm]

theorem mapGet_mapSet_self {α β : Type} [DecidableEq α]
    (l : List (α × β)) (k : α) (v : β) : mapGet (mapSet l k v) k = some v := by
  unfold mapGet mapSet
  induction l with
  | nil => simp
  | cons p rest ih => by_cases h : p.1 = k <;> simp_all [List.find?]

/-- Generic fold-preservation helper. -/
theorem foldl_pres {α : Type} (f : World → α → World) (P : World → Prop)
    (hf : ∀ w a, P w → P (f w a)) :
    ∀ (l : List α) (w : World), P w → P (l.foldl f w) := by
  intro l
  induction l with
  | nil => intro w hw; exact hw
  | cons a rest ih => intro w hw; exact ih (f w a) (hf w a hw)

/-- Generic fold lemma for a projection every step leaves unchanged. -/
theorem foldl_proj {α β : Type} (f : World → α → World) (proj : World → β)
    (hf : ∀ w a, proj (f w a) = proj w) :
    ∀ (l : List α) (w : World), proj (l.foldl f w) = proj w := by
  intro l
  induction l with
  | nil => intro w; rfl
  | cons a rest ih => intro w; rw [List.foldl_cons, ih, hf]

/-- C10: calling `EntityCollection.having` with an empty component
list does not throw (the lookup under the `undefined` key yields a
fresh empty set) and returns the empty list — not the list of all
entities — for every collection state. -/
theorem having_empty_components_returns_empty (w : World) (excl : List CompName) :
    w.having [] excl = [] := rfl

/-- C5: the food tracker's hysteresis.  Under ordered thresholds, a
`full` state survives any clamped value at or above the hungry
threshold and only a value strictly below it demotes (cascading to
`starving` only below the starving threshold); a `hungry` state
promotes to `full` only strictly above the full threshold and demotes
to `starving` only strictly below the starving threshold; a
`starving` state promotes only strictly above the hungry threshold.
Hence a value oscillating inside a band never flips the state on
every update. -/
theorem foodTracker_set_hysteresis (t : FoodTracker) (v : ℚ)
    (hsh : t.th.starving < t.th.hungry) (hhf : t.th.hungry < t.th.full) :
    (t.state = .full →
      (t.setVal v).state =
        (if trackerClamp 0 t.maxv v < t.th.hungry then
          (if trackerClamp 0 t.maxv v < t.th.starving then FoodState.starving
           else FoodState.hungry)
         else FoodState.full)) ∧
    (t.state = .hungry →
      (t.setVal v).state =
        (if t.th.full < trackerClamp 0 t.maxv v then FoodState.full
         else if trackerClamp 0 t.maxv v < t.th.starving then FoodState.starving
         else FoodState.hungry)) ∧
    (t.state = .starving →
      (t.setVal v).state =
        (if t.th.hungry < trackerClamp 0 t.maxv v then FoodState.hungry
         else FoodState.starving)) := by
  refine ⟨?_, ?_, ?_⟩ <;> intro hs <;>
    simp only [FoodTracker.setVal, hs] <;>
    split_ifs <;> simp_all <;> linarith

/-- Witness for the hysteresis theorem at the application's tracker:
a hungry tracker stays hungry on an in-band value. -/
theorem foodTracker_set_hysteresis_witness :
    (hungryTracker.setVal 50).state =
      (if hungryTracker.th.full < trackerClamp 0 hungryTracker.maxv 50 then FoodState.full
       else if trackerClamp 0 hungryTracker.maxv 50 < hungryTracker.th.starving then
         FoodState.starving
       else FoodState.hungry) :=
  (foodTracker_set_hysteresis hungryTracker 50 (by decide) (by decide)).2.1 (by decide)

/-- C6: when the route search returns an empty path for a candidate,
the candidate loop raises no error: it records the candidate as
inaccessible exactly when the planner is grounded (landed or
crawling) — an airborne planner's failure leaves the cache untouched —
and proceeds to the next candidate. -/
theorem foodLoop_empty_route_skips_candidate
    (astar : AStarFn) (w : World) (v : ViewT) (gid : Nat) (grounded : Bool)
    (px py : ℚ) (f : Nat) (rest : List Nat) (t : FoodTracker)
    (hc : (gid, f) ∉ v.pairs) (ht : isCurTarget w t f = false)
    (hr : route astar px py (w.posOf f).x (w.posOf f).y w.grid = []) :
    foodLoop astar w v gid grounded px py (f :: rest) t =
      foodLoop astar w v gid grounded px py rest
        (if grounded then { t with inaccessible := setAdd t.inaccessible f } else t) := by
  simp [foodLoop, hc, ht, hr]

/-- Witness for the empty-route candidate skip at concrete inputs. -/
theorem foodLoop_empty_route_skips_candidate_witness :
    foodLoop trivialAstar c3stale ⟨[], []⟩ 0 true 0 0 [5] hungryTracker =
      foodLoop trivialAstar c3stale ⟨[], []⟩ 0 true 0 0 []
        (if true then { hungryTracker with inaccessible := setAdd hungryTracker.inaccessible 5 }
         else hungryTracker) :=
  foodLoop_empty_route_skips_candidate trivialAstar c3stale ⟨[], []⟩ 0 true 0 0 5 []
    hungryTracker (by decide) (by decide) (by decide)

/-- Counterexample to C3: `Partitions.move` on an entity whose stored
cell `(0,0)` differs from its current cell `(2,2)` relocates the
entity and marks the new cell, but does not mark the old cell as
dirty. -/
theorem partsMove_does_not_mark_old_cell :
    (c3stale.partsMove 0).parts = [((2, 2), 0)] ∧
    (c3stale.partsMove 0).moved = [(2, 2)] ∧
    ((0, 0) : ℤ × ℤ) ∉ (c3stale.partsMove 0).moved := by decide

/-- C3 as amended: for a movable entity whose position hashes to a new
cell key, `Partitions.move` relocates it (the old cell no longer files
it, the new cell does, the reverse map is updated) and marks the new
cell — and only the new cell — as dirty: the old cell is dirty
afterwards only if it already was. -/
theorem partsMove_relocates_marks_new_cell
    (w : World) (i : Nat) (e : Entity) (p : Positioned) (k0 : ℤ × ℤ)
    (he : w.lookup i = some e) (hp : e.positioned = some p)
    (hm : e.movable.isSome = true)
    (hk : mapGet w.reverseP i = some k0) (hne : k0 ≠ getCellKey p.x p.y) :
    ((getCellKey p.x p.y, i) ∈ (w.partsMove i).parts) ∧
    ((k0, i) ∉ (w.partsMove i).parts) ∧
    (mapGet (w.partsMove i).reverseP i = some (getCellKey p.x p.y)) ∧
    (getCellKey p.x p.y ∈ (w.partsMove i).moved) ∧
    (k0 ∈ (w.partsMove i).moved ↔ k0 ∈ w.moved) := by
  have hpos : w.posOf i = p := by simp [World.posOf, he, hp]
  unfold World.partsMove
  rw [hpos]
  simp only [hk, ne_eq, Option.some.injEq]
  rw [if_pos (fun hcontra => hne hcontra)]
  unfold World.partsAdd
  have hlk : w.lookup i = some e := he
  simp only [World.lookup] at hlk
  simp only [World.lookup]
  simp only [hlk, hp, hm, Option.getD_some, if_true]
  refine ⟨?_, ?_, ?_, ?_, ?_⟩
  · simp [mem_setAdd]
  · simp only [mem_setAdd, List.mem_filter]
    rintro (⟨_, hq⟩ | hq)
    · simp at hq
    · exact hne (congrArg Prod.fst hq)
  · exact mapGet_mapSet_self _ _ _
  · simp [hm, mem_setAdd]
  · simp [hm, mem_setAdd, hne]

/-- Witness for the amended `Partitions.move` behaviour at the stale
fixture. -/
theorem partsMove_relocates_marks_new_cell_witness :
    (((getCellKey 5 5, 0) ∈ (c3stale.partsMove 0).parts) ∧
      (((0, 0), 0) ∉ (c3stale.partsMove 0).parts) ∧
      (mapGet (c3stale.partsMove 0).reverseP 0 = some (getCellKey 5 5)) ∧
      (getCellKey 5 5 ∈ (c3stale.partsMove 0).moved) ∧
      (((0, 0) : ℤ × ℤ) ∈ (c3stale.partsMove 0).moved ↔ ((0, 0) : ℤ × ℤ) ∈ c3stale.moved)) :=
  partsMove_relocates_marks_new_cell c3stale 0 moverAt5 ⟨5, 5, 1, 1⟩ (0, 0)
    (by decide) (by decide) (by decide) (by decide) (by decide)

/-- Counterexample to C8: an entity just below terminal velocity
(`vy = 9.99`) receives the full gravity increment for `δ = 0.1` and
ends the phase at `vy = 19.99`, above the terminal velocity — the
result of the addition is not clamped. -/
theorem applyGravity_overshoots_terminal :
    vyOf (applyGravity (1/10) c8fast 0) 0 = some (1999/100) ∧
    TERMINAL_VELOCITY < 1999/100 := by decide

/-- C8 as amended: the gravity phase body adds exactly
`delta * gravity * density` to the vertical velocity of a movable that
is not landed, is strictly below terminal velocity, and is not a
crawling groblin; a movable that is landed, already at or above
terminal velocity, or crawling is left completely unchanged.  (The
sum is gated, not clamped: see the counterexample.) -/
theorem applyGravity_gated_not_clamped
    (δ : ℚ) (w : World) (i : Nat) (e : Entity) (m : MovableC)
    (he : w.lookup i = some e) (hm : e.movable = some m) :
    ((m.landed = none ∧ m.vy < TERMINAL_VELOCITY ∧
        e.groblin.all (fun g => g.crawling = none) = true) →
      applyGravity δ w i = w.setMov i { m with vy := m.vy + δ * GRAVITY * m.density }) ∧
    ((m.landed ≠ none ∨ TERMINAL_VELOCITY ≤ m.vy ∨
        e.groblin.all (fun g => g.crawling = none) = false) →
      applyGravity δ w i = w) := by
  constructor
  · rintro ⟨h1, h2, h3⟩
    simp [applyGravity, he, hm, h1, h2, h3]
  · intro h
    have : ¬(m.landed = none ∧ m.vy < TERMINAL_VELOCITY ∧
        e.groblin.all (fun g => g.crawling = none) = true) := by
      rcases h with h | h | h
      · exact fun hc => h hc.1
      · exact fun hc => absurd hc.2.1 (not_lt.mpr h)
      · exact fun hc => by rw [hc.2.2] at h; cases h
    simp [applyGravity, he, hm, this]

/-- Witness for the gated gravity increment at the fixture faller. -/
theorem applyGravity_gated_not_clamped_witness :
    applyGravity (1/10) c8fast 0 =
      c8fast.setMov 0 { vx := 0, vy := 999/100 + (1/10) * GRAVITY * 1, density := 1, landed := none } :=
  (applyGravity_gated_not_clamped (1/10) c8fast 0 fastFaller
      ⟨0, 999/100, 1, none⟩ (by decide) (by decide)).1 (by decide)

/-- Counterexample to C7: from the identical snapshot and delta, two
ticks that differ only in the `Math.random()` draw for the spawned
berry produce different worlds (the berry lands at different
positions). -/
theorem tick_depends_on_rng_draw :
    c7empty.tick trivialAstar trivialExplore (1/10) 0 ≠
      c7empty.tick trivialAstar trivialExplore (1/10) (1/2) := by decide

/-- Counterexample to C4: from the claim's literal starting state (a
fresh world with one agent and one edible both at `(10, 5)`), a single
tick leaves the agent's plan at `wait` — not at the `Consume`
variant — and the edible still in the store: the fresh edible is not
yet landed, so the planner never considers it. -/
theorem first_tick_plan_not_consume :
    planOf (c4start.tick trivialAstar trivialExplore (1/100) 0) 0 = some Plan.wait ∧
    1 ∈ (c4start.tick trivialAstar trivialExplore (1/100) 0).store := by decide

/-- C4 as amended: once the edible is landed and the agent–edible
contact has been recorded by a previous collision pass (and the food
need is the active priority), the next tick's plan is the `Consume`
(`eat`) variant; during that same tick the edible is removed from the
entity store and the agent's food value rises by exactly the edible's
food value on top of the tick's decay. -/
theorem consume_tick_eats_recorded_contact :
    planOf (c4ready.tick trivialAstar trivialExplore (1/100) 0) 0 = some (Plan.eat 1) ∧
    1 ∉ (c4ready.tick trivialAstar trivialExplore (1/100) 0).store ∧
    foodValOf (c4ready.tick trivialAstar trivialExplore (1/100) 0) 0 =
      some (25 - 10 * (1/100) + 20) := by decide

theorem berryTimer_partsAdd (w : World) (i : Nat) :
    (w.partsAdd i).berryTimer = w.berryTimer := by
  unfold World.partsAdd
  cases w.lookup i <;> rfl

theorem berryTimer_setGrob (w : World) (i : Nat) (g : GroblinC) :
    (w.setGrob i g).berryTimer = w.berryTimer := by
  unfold World.setGrob World.heapSet
  cases w.lookup i <;> rfl

theorem berryTimer_clearPriorityNeed (w : World) (i : Nat) :
    (w.clearPriorityNeed i).berryTimer = w.berryTimer := by
  unfold World.clearPriorityNeed
  repeat' split
  all_goals first
  | rfl
  | rw [berryTimer_setGrob]

theorem berryTimer_updateGrid (w : World) (u : List (ℤ × ℤ)) :
    (w.updateGrid u).berryTimer = w.berryTimer :=
  (foldl_proj (fun ww i => ww.partsAdd i) World.berryTimer
      (fun ww i => berryTimer_partsAdd ww i) _ _).trans
    (foldl_proj World.clearPriorityNeed World.berryTimer
      berryTimer_clearPriorityNeed _ _)

theorem spawnBerry_no_spawn (w : World) (δ r : ℚ) (h : δ < w.berryTimer) :
    spawnBerry w δ r = { w with berryTimer := w.berryTimer - δ } := by
  unfold spawnBerry
  rw [if_neg]
  simp only [not_le]
  linarith

/-- C7 as amended: `World.tick` is a deterministic function of the
snapshot, the grid and the delta — independent of the RNG draw —
whenever the berry-spawn timer does not elapse during the tick; the A*
and exploration searches are deterministic functions of their inputs
by construction. -/
theorem tick_deterministic_without_spawn
    (astar : AStarFn) (ex : ExploreFn) (w : World) (δ r1 r2 : ℚ)
    (h : δ < w.berryTimer) :
    w.tick astar ex δ r1 = w.tick astar ex δ r2 := by
  simp only [World.tick, World.preResetState]
  have hbt :
      (if ¬w.inited then ({ w with inited := true }).updateGrid (allCoords w) else w).berryTimer =
        w.berryTimer := by
    split
    · rw [berryTimer_updateGrid]
    · rfl
  have hδ :
      δ < (if ¬w.inited then
        ({ w with inited := true }).updateGrid (allCoords w) else w).berryTimer := by
    rw [hbt]; exact h
  rw [spawnBerry_no_spawn _ _ r1 hδ, spawnBerry_no_spawn _ _ r2 hδ]

/-- Witness for tick determinism below the berry timer. -/
theorem tick_deterministic_without_spawn_witness :
    c4ready.tick trivialAstar trivialExplore (1/100) 0 =
      c4ready.tick trivialAstar trivialExplore (1/100) 1 :=
  tick_deterministic_without_spawn trivialAstar trivialExplore c4ready (1/100) 0 1 (by decide)

/-- Counterexample to C2: the first-tick full rebuild iterates only
`0 ≤ x < width`, `0 ≤ y < height`, so the border tile `(2, 1)` of a
`2 × 2` world (whose grid is `3 × 3`) is left unwalkable even though
it holds climbable terrain, for which the claimed invariant demands
walkability. -/
theorem updateGrid_misses_border_tile :
    c2cave.isInside 2 1 = true ∧
    (((2, 1) : ℤ × ℤ) ∉ (c2cave.updateGrid (allCoords c2cave)).walkable) ∧
    specWalkable c2cave 2 1 = true := by decide

theorem mem_setWalk_ne (walk : List (ℤ × ℤ)) (c u : ℤ × ℤ) (b : Bool) (h : u ≠ c) :
    u ∈ World.setWalk walk c b ↔ u ∈ walk := by
  unfold World.setWalk
  cases b <;> simp [mem_setAdd, h, List.mem_filter]

theorem mem_setWalk_self (walk : List (ℤ × ℤ)) (u : ℤ × ℤ) (b : Bool) :
    u ∈ World.setWalk walk u b ↔ b = true := by
  unfold World.setWalk
  cases b <;> simp [mem_setAdd, List.mem_filter]

theorem mem_gridUpdateCell_ne (w : World) (walk : List (ℤ × ℤ)) (c u : ℤ × ℤ)
    (h : u ≠ c) : u ∈ w.gridUpdateCell walk c ↔ u ∈ walk := by
  unfold World.gridUpdateCell
  split_ifs <;> simp [mem_setWalk_ne _ _ _ _ h]

theorem mem_gridUpdateCell_self (w : World) (walk : List (ℤ × ℤ)) (u : ℤ × ℤ)
    (hin : w.isInside u.1 u.2 = true) :
    (u ∈ w.gridUpdateCell walk u ↔ specWalkable w u.1 u.2 = true) := by
  unfold World.gridUpdateCell specWalkable
  split_ifs with h1 h2 h3 h4 <;> simp_all [mem_setWalk_self]
  all_goals tauto

theorem mem_gridFold_notin (w : World) (u : ℤ × ℤ) :
    ∀ (coords : List (ℤ × ℤ)) (walk : List (ℤ × ℤ)), u ∉ coords →
      (u ∈ coords.foldl w.gridUpdateCell walk ↔ u ∈ walk) := by
  intro coords
  induction coords with
  | nil => intro walk _; rfl
  | cons c rest ih =>
    intro walk hu
    rw [List.foldl_cons, ih _ (fun h => hu (List.mem_cons_of_mem c h)),
      mem_gridUpdateCell_ne w walk c u (fun h => hu (h ▸ List.mem_cons_self c rest))]

theorem mem_gridFold_stable (w : World) (u : ℤ × ℤ)
    (hin : w.isInside u.1 u.2 = true) :
    ∀ (coords : List (ℤ × ℤ)) (walk : List (ℤ × ℤ)),
      (u ∈ walk ↔ specWalkable w u.1 u.2 = true) →
      (u ∈ coords.foldl w.gridUpdateCell walk ↔ specWalkable w u.1 u.2 = true) := by
  intro coords
  induction coords with
  | nil => intro walk hw; exact hw
  | cons c rest ih =>
    intro walk hw
    rw [List.foldl_cons]
    apply ih
    by_cases hc : u = c
    · subst hc; exact mem_gridUpdateCell_self w walk u hin
    · rw [mem_gridUpdateCell_ne w walk c u hc]; exact hw

theorem mem_gridFold_covered (w : World) (u : ℤ × ℤ)
    (hin : w.isInside u.1 u.2 = true) :
    ∀ (coords : List (ℤ × ℤ)) (walk : List (ℤ × ℤ)), u ∈ coords →
      (u ∈ coords.foldl w.gridUpdateCell walk ↔ specWalkable w u.1 u.2 = true) := by
  intro coords
  induction coords with
  | nil => intro walk hu; cases hu
  | cons c rest ih =>
    intro walk hu
    rw [List.foldl_cons]
    by_cases hc : u = c
    · subst hc
      exact mem_gridFold_stable w u hin rest _ (mem_gridUpdateCell_self w walk u hin)
    · rcases List.mem_cons.mp hu with h | h
      · exact absurd h hc
      · exact ih _ h

theorem mem_allCoords (w : World) (x y : ℤ)
    (hx0 : 0 ≤ x) (hx1 : x < (w.width : ℤ)) (hy0 : 0 ≤ y) (hy1 : y < (w.height : ℤ)) :
    (x, y) ∈ allCoords w := by
  unfold allCoords
  have hx : x = Int.ofNat x.toNat := by simp only [Int.ofNat_eq_natCast]; omega
  have hy : y = Int.ofNat y.toNat := by simp only [Int.ofNat_eq_natCast]; omega
  have h1 : x.toNat ∈ List.range w.width := List.mem_range.mpr (by omega)
  have h2 : y.toNat ∈ List.range w.height := List.mem_range.mpr (by omega)
  rw [hx, hy]
  exact List.mem_flatMap.mpr
    ⟨x.toNat, h1, List.mem_map_of_mem (fun n : ℕ => (Int.ofNat x.toNat, Int.ofNat n)) h2⟩

theorem walkable_partsAdd (w : World) (i : Nat) :
    (w.partsAdd i).walkable = w.walkable := by
  unfold World.partsAdd
  cases w.lookup i <;> rfl

theorem walkable_setGrob (w : World) (i : Nat) (g : GroblinC) :
    (w.setGrob i g).walkable = w.walkable := by
  unfold World.setGrob World.heapSet
  cases w.lookup i <;> rfl

theorem walkable_clearPriorityNeed (w : World) (i : Nat) :
    (w.clearPriorityNeed i).walkable = w.walkable := by
  unfold World.clearPriorityNeed
  repeat' split
  all_goals first
  | rfl
  | rw [walkable_setGrob]

theorem walkable_updateGrid (w : World) (u : List (ℤ × ℤ)) :
    (w.updateGrid u).walkable = u.foldl w.gridUpdateCell w.walkable :=
  (foldl_proj (fun ww i => ww.partsAdd i) World.walkable
      (fun ww i => walkable_partsAdd ww i) _ _).trans
    (foldl_proj World.clearPriorityNeed World.walkable
      walkable_clearPriorityNeed _ _)

/-- C2 as amended: after the full `updateGrid` pass of the first tick,
every interior tile (`0 ≤ x < width`, `0 ≤ y < height`; the pass never
reaches the grid's border row and column) is walkable iff it is not
itself occupied by a solid terrain entity AND (the tile directly below
holds a solid or climbable entity, OR the tile itself holds climbable
terrain, OR a solid entity sits at `(x, y+2)` together with one at
`(x-1, y+1)` or `(x+1, y+1)`). -/
theorem updateGrid_interior_walkable_iff_spec
    (w : World) (x y : ℤ)
    (hx0 : 0 ≤ x) (hx1 : x < (w.width : ℤ)) (hy0 : 0 ≤ y) (hy1 : y < (w.height : ℤ)) :
    ((x, y) ∈ (w.updateGrid (allCoords w)).walkable ↔ specWalkable w x y = true) := by
  have hin : w.isInside x y = true := by
    simp only [World.isInside, decide_eq_true_eq]
    omega
  rw [walkable_updateGrid]
  exact mem_gridFold_covered w (x, y) hin (allCoords w) w.walkable
    (mem_allCoords w x y hx0 hx1 hy0 hy1)

/-- Witness for the interior walkability characterization: the tile
above the single block of the fixture world is walkable, matching the
specification predicate. -/
theorem updateGrid_interior_walkable_iff_spec_witness :
    ((1, 0) ∈ (c2block.updateGrid (allCoords c2block)).walkable ↔
      specWalkable c2block 1 0 = true) :=
  updateGrid_interior_walkable_iff_spec c2block 1 0 (by decide) (by decide)
    (by decide) (by decide)

theorem find?_filter_ne_append {α β : Type} [DecidableEq α]
    (l : List (α × β)) (k k1 : α) (v : β) (h : ¬ k1 = k) :
    List.find? (fun p => p.1 = k1) (l.filter (fun p => p.1 ≠ k) ++ [(k, v)]) =
      List.find? (fun p => p.1 = k1) l := by
  induction l with
  | nil => simp [List.find?, Ne.symm h]
  | cons p rest ih =>
    by_cases hpk : p.1 = k
    · have hp1 : ¬ p.1 = k1 := fun hc => h (hc ▸ hpk)
      rw [List.filter_cons_of_neg (by simp [hpk]),
        List.find?_cons_of_neg _ (by simp [hp1]), ih]
    · rw [List.filter_cons_of_pos (by simp [hpk]), List.cons_append]
      by_cases hp1 : p.1 = k1
      · rw [List.find?_cons_of_pos _ (by simp [hp1]),
          List.find?_cons_of_pos _ (by simp [hp1])]
      · rw [List.find?_cons_of_neg _ (by simp [hp1]),
          List.find?_cons_of_neg _ (by simp [hp1]), ih]

theorem mapGet_mapSet {α β : Type} [DecidableEq α]
    (l : List (α × β)) (k k1 : α) (v : β) :
    mapGet (mapSet l k v) k1 = if k1 = k then some v else mapGet l k1 := by
  split
  · next h => subst h; exact mapGet_mapSet_self l k1 v
  · next h =>
    unfold mapGet mapSet
    rw [find?_filter_ne_append l k k1 v h]

theorem lookup_heapSet (w : World) (i : Nat) (e : Entity) (j : Nat) :
    (w.heapSet i e).lookup j = if j = i then some e else w.lookup j := by
  unfold World.lookup World.heapSet
  exact mapGet_mapSet w.heap i j e

theorem moved_setMov (w : World) (j : Nat) (m : MovableC) :
    (w.setMov j m).moved = w.moved := by
  unfold World.setMov World.heapSet
  cases w.lookup j <;> rfl

theorem hasMoved_set_pairs (w : World) (ps : List (Nat × Nat)) (i : Nat) :
    (({ w with pairs := ps } : World)).hasMoved i = w.hasMoved i := rfl

theorem landedOf_set_pairs (w : World) (ps : List (Nat × Nat)) (i : Nat) :
    (({ w with pairs := ps } : World)).landedOf i = w.landedOf i := rfl

theorem landedOf_setMov_self (w : World) (i : Nat) (m : MovableC) (e : Entity)
    (he : w.lookup i = some e) :
    (w.setMov i m).landedOf i = m.landed := by
  unfold World.setMov World.landedOf
  rw [he]
  simp [lookup_heapSet]

theorem lookup_setMov_ne (w : World) (j : Nat) (m : MovableC) (i : Nat) (h : i ≠ j) :
    (w.setMov j m).lookup i = w.lookup i := by
  unfold World.setMov
  cases w.lookup j with
  | none => rfl
  | some e => rw [lookup_heapSet, if_neg h]

theorem landedOf_setMov_ne (w : World) (j : Nat) (m : MovableC) (i : Nat) (h : i ≠ j) :
    (w.setMov j m).landedOf i = w.landedOf i := by
  unfold World.landedOf
  rw [lookup_setMov_ne w j m i h]

theorem posOf_setMov (w : World) (j : Nat) (m : MovableC) (i : Nat) :
    (w.setMov j m).posOf i = w.posOf i := by
  by_cases h : i = j
  · subst h
    cases hl : w.lookup i with
    | none => simp [World.setMov, hl]
    | some e => simp [World.posOf, World.setMov, hl, lookup_heapSet]
  · unfold World.posOf
    rw [lookup_setMov_ne w j m i h]

theorem hasMoved_setMov (w : World) (j : Nat) (m : MovableC) (i : Nat) :
    (w.setMov j m).hasMoved i = w.hasMoved i := by
  unfold World.hasMoved
  rw [posOf_setMov, moved_setMov]

theorem hasMoved_resetLandedStep (w : World) (j i : Nat) :
    (resetLandedStep w j).hasMoved i = w.hasMoved i := by
  unfold resetLandedStep
  split
  · rw [hasMoved_set_pairs]
    cases hl : w.lookup j with
    | none => rfl
    | some e =>
      cases hm : e.movable with
      | none => simp only [hm]
      | some m => simp only [hm, hasMoved_setMov]
  · rfl

theorem landedOf_resetLandedStep_ne (w : World) (j i : Nat) (h : i ≠ j) :
    (resetLandedStep w j).landedOf i = w.landedOf i := by
  unfold resetLandedStep
  split
  · rw [landedOf_set_pairs]
    cases hl : w.lookup j with
    | none => rfl
    | some e =>
      cases hm : e.movable with
      | none => simp only [hm]
      | some m => simp only [hm, landedOf_setMov_ne w j _ i h]
  · rfl

theorem landedOf_resetLandedStep_self (w : World) (i : Nat) :
    (resetLandedStep w i).landedOf i =
      if w.hasMoved i = true then none else w.landedOf i := by
  unfold resetLandedStep
  split
  · next hmv =>
    simp only [landedOf_set_pairs]
    cases hl : w.lookup i with
    | none => simp [World.landedOf, hl]
    | some e =>
      cases hm : e.movable with
      | none => simp only [hl, hm]; simp [World.landedOf, hl, hm]
      | some m => simp only [hl, hm, landedOf_setMov_self w i _ e hl]
  · next hmv =>
    rfl

theorem landedOf_resetFold (l : List Nat) :
    ∀ (w : World) (i : Nat),
      (l.foldl resetLandedStep w).landedOf i =
        if i ∈ l ∧ w.hasMoved i = true then none else w.landedOf i := by
  induction l with
  | nil => intro w i; simp
  | cons j rest ih =>
    intro w i
    rw [List.foldl_cons, ih]
    by_cases hj : i = j
    · subst hj
      rw [hasMoved_resetLandedStep]
      by_cases hmv : w.hasMoved i = true
      · by_cases hr : i ∈ rest <;>
          simp [hr, hmv, landedOf_resetLandedStep_self, List.mem_cons]
      · simp [hmv, landedOf_resetLandedStep_self]
    · rw [hasMoved_resetLandedStep, landedOf_resetLandedStep_ne w j i hj]
      simp [List.mem_cons, hj]

theorem mem_having_mpc (w : World) (i : Nat) :
    i ∈ w.having [.movable, .positioned, .collidable] [] ↔
      i ∈ w.store ∧ w.entHas i .movable = true ∧ w.entHas i .positioned = true ∧
        w.entHas i .collidable = true := by
  simp [World.having, World.candidatesFor, List.mem_filter]
  tauto

theorem landedOf_heapSet_ne (w : World) (i : Nat) (e : Entity) (j : Nat) (h : j ≠ i) :
    (w.heapSet i e).landedOf j = w.landedOf j := by
  unfold World.landedOf
  rw [lookup_heapSet, if_neg h]

theorem landedOf_collideWithBlock_ne_none (δ : ℚ) (w : World) (a b i : Nat)
    (h : w.landedOf i ≠ none) : (collideWithBlock δ w a b).landedOf i ≠ none := by
  unfold collideWithBlock
  cases hl : w.lookup a with
  | none => exact h
  | some em =>
    cases hp : em.positioned with
    | none => simp only [hp]; exact h
    | some mp =>
      cases hm : em.movable with
      | none => simp only [hp, hm]; exact h
      | some mm =>
        simp only [hp, hm]
        by_cases hai : i = a
        · subst hai
          have hli : w.landedOf i = mm.landed := by simp [World.landedOf, hl, hm]
          rw [hli] at h
          split_ifs <;>
            simp [World.landedOf, lookup_heapSet, h]
        · split_ifs <;> rw [landedOf_heapSet_ne _ _ _ _ hai] <;> exact h

theorem landedOf_setGrob (w : World) (j : Nat) (g : GroblinC) (i : Nat) :
    (w.setGrob j g).landedOf i = w.landedOf i := by
  unfold World.setGrob
  cases hl : w.lookup j with
  | none => rfl
  | some e =>
    by_cases hij : i = j
    · subst hij
      simp [World.landedOf, lookup_heapSet, hl]
    · exact landedOf_heapSet_ne _ _ _ _ hij

theorem landedOf_setCrawling (w : World) (j : Nat) (c : Option Nat) (i : Nat) :
    (setCrawling w j c).landedOf i = w.landedOf i := by
  unfold setCrawling
  cases hl : w.lookup j with
  | none => rfl
  | some e =>
    cases hg : e.groblin with
    | none => simp only [hg]
    | some g => simp only [hg, landedOf_setGrob]

theorem landedOf_blockRespStep_ne_none (δ : ℚ) (w : World) (a b i : Nat)
    (h : w.landedOf i ≠ none) : (blockRespStep δ w a b).landedOf i ≠ none := by
  unfold blockRespStep
  split
  · exact landedOf_collideWithBlock_ne_none δ w a b i h
  · exact h

theorem landedOf_crawlRespStep (w : World) (a b i : Nat) :
    (crawlRespStep w a b).landedOf i = w.landedOf i := by
  unfold crawlRespStep
  split
  · rw [landedOf_setCrawling]
  · rfl

theorem landedOf_collideStep_ne_none (δ : ℚ) (w : World) (p : Nat × Nat) (i : Nat)
    (h : w.landedOf i ≠ none) : (collideStep δ w p).landedOf i ≠ none := by
  unfold collideStep
  split
  · rw [landedOf_crawlRespStep, landedOf_crawlRespStep]
    apply landedOf_blockRespStep_ne_none
    apply landedOf_blockRespStep_ne_none
    rw [landedOf_set_pairs]
    exact h
  · exact h

theorem landedOf_setPos (w : World) (j : Nat) (p : Positioned) (i : Nat) :
    (w.setPos j p).landedOf i = w.landedOf i := by
  unfold World.setPos
  cases hl : w.lookup j with
  | none => rfl
  | some e =>
    by_cases hij : i = j
    · subst hij
      simp [World.landedOf, lookup_heapSet, hl]
    · exact landedOf_heapSet_ne _ _ _ _ hij

theorem landedOf_partsAdd (w : World) (j i : Nat) :
    (w.partsAdd j).landedOf i = w.landedOf i := by
  unfold World.partsAdd
  cases w.lookup j <;> rfl

theorem landedOf_partsMove (w : World) (j i : Nat) :
    (w.partsMove j).landedOf i = w.landedOf i := by
  simp only [World.partsMove]
  split
  · split <;> rw [landedOf_partsAdd] <;> rfl
  · rfl

theorem landedOf_integrateStep (δ : ℚ) (w : World) (j i : Nat) :
    (integrateStep δ w j).landedOf i = w.landedOf i := by
  unfold integrateStep
  cases hl : w.lookup j with
  | none => rfl
  | some e =>
    cases hp : e.positioned with
    | none => simp only [hp]
    | some p =>
      cases hm : e.movable with
      | none => simp only [hp, hm]
      | some m =>
        simp only [hp, hm]
        split
        · rw [landedOf_partsMove, landedOf_setPos]
        · rfl

theorem landedOf_postReset_ne_none (w : World) (δ : ℚ) (i : Nat)
    (hmv : w.hasMoved i = false) (h : w.landedOf i ≠ none) :
    (w.postResetState δ).landedOf i ≠ none := by
  simp only [World.postResetState, World.resetPhase]
  apply foldl_pres (integrateStep δ) (fun ww => ww.landedOf i ≠ none)
    (fun ww j hww => by rw [landedOf_integrateStep]; exact hww)
  apply foldl_pres (fun ww n => (orderedPairs n).foldl (collideStep δ) ww)
    (fun ww => ww.landedOf i ≠ none)
    (fun ww n hww =>
      foldl_pres (collideStep δ) (fun ww2 => ww2.landedOf i ≠ none)
        (fun ww2 p hww2 => landedOf_collideStep_ne_none δ ww2 p i hww2)
        (orderedPairs n) ww hww)
  show ((w.having [.movable, .positioned, .collidable] []).foldl
      resetLandedStep w).neighborhoodsWithMovement.2.landedOf i ≠ none
  have hmoved : ∀ ww : World, ww.neighborhoodsWithMovement.2.landedOf i = ww.landedOf i :=
    fun ww => rfl
  rw [hmoved, landedOf_resetFold]
  simp [hmv, h]

/-- C1: in the landed-reset phase of `World.tick`, a movable
positioned collidable entity's `landed` reference is set to `null`
exactly when the Spatial Partition's move-detection flags it
(`hasMoved`); consequently a resting entity the move-detection does
not flag — one that has not moved — keeps a non-null `landed` through
the entire tick, never alternating between landed and falling. -/
theorem landed_reset_exactly_on_move :
    (∀ (w : World) (i : Nat) (e : Entity) (m : MovableC),
      i ∈ w.store → w.lookup i = some e → e.movable = some m →
      e.positioned.isSome = true → e.collidable.isSome = true →
      (w.resetPhase).landedOf i = (if w.hasMoved i = true then none else m.landed)) ∧
    (∀ (astar : AStarFn) (exploreFn : ExploreFn) (w : World) (δ rand : ℚ) (i : Nat),
      (w.preResetState astar exploreFn δ rand).hasMoved i = false →
      (w.preResetState astar exploreFn δ rand).landedOf i ≠ none →
      (w.tick astar exploreFn δ rand).landedOf i ≠ none) := by
  constructor
  · intro w i e m hs he hm hp hc
    unfold World.resetPhase
    rw [landedOf_resetFold]
    have hmem : i ∈ w.having [.movable, .positioned, .collidable] [] := by
      rw [mem_having_mpc]
      refine ⟨hs, ?_, ?_, ?_⟩ <;> simp [World.entHas, he, Entity.has, hm, hp, hc]
    have hland : w.landedOf i = m.landed := by
      simp [World.landedOf, he, hm]
    by_cases hmv : w.hasMoved i = true <;> simp [hmv, hmem, hland]
  · intro astar exploreFn w δ rand i hmv h
    exact landedOf_postReset_ne_none _ δ i hmv h

/-- Witness for the landed-reset behaviour at the resting-berry
fixture: the unmoved berry's `landed` reference survives both the
reset phase and a whole tick. -/
theorem landed_reset_exactly_on_move_witness :
    ((c1rest.resetPhase).landedOf 1 =
      (if c1rest.hasMoved 1 = true then none else some 0)) ∧
    ((c1rest.tick trivialAstar trivialExplore (1/100) 0).landedOf 1 ≠ none) :=
  ⟨landed_reset_exactly_on_move.1 c1rest 1 berryOnBlock0 ⟨0, 0, 1, some 0⟩
      (by decide) (by decide) (by decide) (by decide) (by decide),
    landed_reset_exactly_on_move.2 trivialAstar trivialExplore c1rest (1/100) 0 1
      (by decide) (by decide)⟩

theorem pairsSymm_insert2 (ps : List (Nat × Nat)) (a b : Nat) (h : PairsSymm ps) :
    PairsSymm (insertPair (insertPair ps a b) b a) := by
  intro x y
  have hxy := h x y
  simp only [insertPair, mem_setAdd, Prod.mk.injEq]
  tauto

theorem pairsSymm_drop (ps : List (Nat × Nat)) (i : Nat) (h : PairsSymm ps) :
    PairsSymm (pairsDropEntity ps i) := by
  have hmem : ∀ x y : Nat, ((x, y) ∈ pairsDropEntity ps i ↔ (x, y) ∈ ps ∧ x ≠ i ∧ y ≠ i) := by
    intro x y
    simp only [pairsDropEntity, List.mem_filter, decide_eq_true_eq, not_and,
      Bool.not_eq_eq_eq_not, Bool.not_true, decide_eq_false_iff_not]
    constructor
    · rintro ⟨⟨hm, hni⟩, hxi⟩
      exact ⟨hm, hxi, fun hyi => hni hyi ((h x i).mp (hyi ▸ hm))⟩
    · rintro ⟨hm, hxi, hyi⟩
      exact ⟨⟨hm, fun hyi2 => absurd hyi2 hyi⟩, hxi⟩
  intro x y
  rw [hmem, hmem]
  constructor
  · rintro ⟨hm, h1, h2⟩; exact ⟨(h x y).mp hm, h2, h1⟩
  · rintro ⟨hm, h1, h2⟩; exact ⟨(h y x).mp hm, h2, h1⟩

theorem pairs_set_pairs (w : World) (ps : List (Nat × Nat)) :
    (({ w with pairs := ps } : World)).pairs = ps := rfl

theorem pairs_setMov (w : World) (i : Nat) (m : MovableC) :
    (w.setMov i m).pairs = w.pairs := by
  unfold World.setMov
  cases w.lookup i <;> rfl

theorem pairs_setPos (w : World) (i : Nat) (p : Positioned) :
    (w.setPos i p).pairs = w.pairs := by
  unfold World.setPos
  cases w.lookup i <;> rfl

theorem pairs_setGrob (w : World) (i : Nat) (g : GroblinC) :
    (w.setGrob i g).pairs = w.pairs := by
  unfold World.setGrob
  cases w.lookup i <;> rfl

theorem pairs_setCrawling (w : World) (i : Nat) (c : Option Nat) :
    (setCrawling w i c).pairs = w.pairs := by
  unfold setCrawling
  cases w.lookup i with
  | none => rfl
  | some e =>
    cases hg : e.groblin with
    | none => simp only [hg]
    | some g => simp only [hg, pairs_setGrob]

theorem pairs_partsAdd (w : World) (i : Nat) :
    (w.partsAdd i).pairs = w.pairs := by
  unfold World.partsAdd
  cases w.lookup i <;> rfl

theorem pairs_partsMove (w : World) (i : Nat) :
    (w.partsMove i).pairs = w.pairs := by
  simp only [World.partsMove]
  split
  · split <;> rw [pairs_partsAdd]
  · rfl

theorem pairs_collideWithBlock (δ : ℚ) (w : World) (a b : Nat) :
    (collideWithBlock δ w a b).pairs = w.pairs := by
  unfold collideWithBlock
  cases hl : w.lookup a with
  | none => rfl
  | some em =>
    cases hp : em.positioned with
    | none => simp only [hp]
    | some mp =>
      cases hm : em.movable with
      | none => simp only [hp, hm]
      | some mm => simp only [hp, hm]; split_ifs <;> rfl

theorem pairs_blockRespStep (δ : ℚ) (w : World) (a b : Nat) :
    (blockRespStep δ w a b).pairs = w.pairs := by
  unfold blockRespStep
  split
  · rw [pairs_collideWithBlock]
  · rfl

theorem pairs_crawlRespStep (w : World) (a b : Nat) :
    (crawlRespStep w a b).pairs = w.pairs := by
  unfold crawlRespStep
  split
  · rw [pairs_setCrawling]
  · rfl

theorem pairsSymm_collideStep (δ : ℚ) (w : World) (p : Nat × Nat)
    (h : PairsSymm w.pairs) : PairsSymm (collideStep δ w p).pairs := by
  unfold collideStep
  split
  · rw [pairs_crawlRespStep, pairs_crawlRespStep, pairs_blockRespStep,
      pairs_blockRespStep, pairs_set_pairs]
    exact pairsSymm_insert2 w.pairs p.1 p.2 h
  · exact h

theorem pairs_applyGravity (δ : ℚ) (w : World) (i : Nat) :
    (applyGravity δ w i).pairs = w.pairs := by
  unfold applyGravity
  cases hl : w.lookup i with
  | none => rfl
  | some e =>
    cases hm : e.movable with
    | none => simp only [hm]
    | some m =>
      simp only [hm]
      split
      · rw [pairs_setMov]
      · rfl

theorem pairs_groblinMove (δ : ℚ) (w : World) (i : Nat) (path : List (ℤ × ℤ)) :
    (groblinMove δ w i path).pairs = w.pairs := by
  unfold groblinMove
  cases path with
  | nil => rfl
  | cons p0 rest =>
    cases hl : w.lookup i with
    | none => rfl
    | some e =>
      cases hp : e.positioned with
      | none => simp only [hp]
      | some p =>
        cases hm : e.movable with
        | none => simp only [hp, hm]
        | some m =>
          cases hg : e.groblin with
          | none => simp only [hp, hm, hg]
          | some g => simp only [hp, hm, hg, pairs_setMov]

theorem pairs_groblinMoveStage (δ : ℚ) (w : World) (i : Nat) (pl : Plan) :
    (groblinMoveStage δ w i pl).pairs = w.pairs := by
  unfold groblinMoveStage
  cases pl <;> simp only [pairs_groblinMove]

theorem pairsSymm_removeEntity (w : World) (i : Nat) (h : PairsSymm w.pairs) :
    PairsSymm (w.removeEntity i).pairs := by
  simp only [World.removeEntity]
  split
  · exact pairsSymm_drop w.pairs i h
  · exact h

theorem pairsSymm_eatStage (w : World) (i : Nat) (pl : Plan)
    (h : PairsSymm w.pairs) : PairsSymm (groblinEatStage w i pl).pairs := by
  cases pl with
  | eat f =>
    simp only [groblinEatStage]
    split
    · apply pairsSymm_removeEntity
      cases hl : w.lookup i with
      | none => simp only [hl]; exact h
      | some ei =>
        simp only [hl]
        cases hg : ei.groblin with
        | none => simp only [hg]; exact h
        | some gi => simp only [hg, pairs_setGrob]; exact h
    · exact h
  | move tgt path => exact h
  | wait => exact h

theorem pairs_groblinPlanned (astar : AStarFn) (exploreFn : ExploreFn) (δ : ℚ)
    (w : World) (i : Nat) :
    ∀ wpl ∈ groblinPlanned astar exploreFn δ w i, wpl.1.pairs = w.pairs := by
  intro wpl hmem
  unfold groblinPlanned at hmem
  repeat' split at hmem
  all_goals try simp_all [pairs_setGrob]
  rename_i p m g h1 h2 h3
  cases hpr : (needsTickAndPriority δ g).priority with
  | none =>
    simp only [hpr, Option.some.injEq] at hmem
    subst hmem
    simp [pairs_setGrob]
  | some k =>
    cases k
    all_goals simp only [hpr, Option.some.injEq] at hmem
    all_goals subst hmem
    all_goals simp [pairs_setGrob]

theorem pairsSymm_groblinStep (astar : AStarFn) (exploreFn : ExploreFn) (δ : ℚ)
    (w : World) (i : Nat) (h : PairsSymm w.pairs) :
    PairsSymm (groblinStep astar exploreFn δ w i).pairs := by
  unfold groblinStep
  cases hp : groblinPlanned astar exploreFn δ w i with
  | none => exact h
  | some wpl =>
    have h1 : wpl.1.pairs = w.pairs :=
      pairs_groblinPlanned astar exploreFn δ w i wpl (by rw [hp]; rfl)
    have h2 : PairsSymm (groblinMoveStage δ wpl.1 i wpl.2).pairs := by
      rw [pairs_groblinMoveStage, h1]; exact h
    have h3 := pairsSymm_eatStage _ i wpl.2 h2
    rw [pairs_setCrawling]
    exact h3

theorem pairsSymm_resetLandedStep (w : World) (j : Nat) (h : PairsSymm w.pairs) :
    PairsSymm (resetLandedStep w j).pairs := by
  unfold resetLandedStep
  split
  · cases hl : w.lookup j with
    | none => exact pairsSymm_drop _ _ h
    | some e =>
      cases hm : e.movable with
      | none => simp only [hl, hm]; exact pairsSymm_drop _ _ h
      | some m =>
        simp only [hl, hm, pairs_set_pairs, pairs_setMov]
        exact pairsSymm_drop _ _ h
  · exact h

theorem pairs_integrateStep (δ : ℚ) (w : World) (j : Nat) :
    (integrateStep δ w j).pairs = w.pairs := by
  unfold integrateStep
  cases hl : w.lookup j with
  | none => rfl
  | some e =>
    cases hp : e.positioned with
    | none => simp only [hp]
    | some p =>
      cases hm : e.movable with
      | none => simp only [hp, hm]
      | some m =>
        simp only [hp, hm]
        split
        · rw [pairs_partsMove, pairs_setPos]
        · rfl

theorem pairs_addEntity (w : World) (i : Nat) (e : Entity) :
    (w.addEntity i e).pairs = w.pairs := by
  simp only [World.addEntity]
  split
  · rw [pairs_partsAdd]; rfl
  · rfl

theorem pairs_spawnBerry (w : World) (δ r : ℚ) :
    (spawnBerry w δ r).pairs = w.pairs := by
  simp only [spawnBerry]
  split
  · rw [pairs_addEntity]
  · rfl

theorem pairs_clearPriorityNeed (w : World) (i : Nat) :
    (w.clearPriorityNeed i).pairs = w.pairs := by
  unfold World.clearPriorityNeed
  repeat' split
  all_goals first
  | rfl
  | rw [pairs_setGrob]

theorem pairs_updateGrid (w : World) (u : List (ℤ × ℤ)) :
    (w.updateGrid u).pairs = w.pairs :=
  (foldl_proj (fun ww i => ww.partsAdd i) World.pairs
      (fun ww i => pairs_partsAdd ww i) _ _).trans
    (foldl_proj World.clearPriorityNeed World.pairs
      pairs_clearPriorityNeed _ _)

set_option maxHeartbeats 2000000 in
theorem pairsSymm_tickAux (astar : AStarFn) (exploreFn : ExploreFn) (w : World)
    (δ rand : ℚ) (h : PairsSymm w.pairs) :
    PairsSymm ((w.preResetState astar exploreFn δ rand).postResetState δ).pairs := by
  have h4 : PairsSymm (w.preResetState astar exploreFn δ rand).pairs := by
    simp only [World.preResetState]
    apply foldl_pres (groblinStep astar exploreFn δ) (fun ww => PairsSymm ww.pairs)
      (fun ww i hww => pairsSymm_groblinStep astar exploreFn δ ww i hww)
    apply foldl_pres (applyGravity δ) (fun ww => PairsSymm ww.pairs)
      (fun ww i hww => by rw [pairs_applyGravity]; exact hww)
    rw [pairs_spawnBerry]
    split
    · rw [pairs_updateGrid]; exact h
    · exact h
  simp only [World.postResetState, World.resetPhase]
  apply foldl_pres (integrateStep δ) (fun ww => PairsSymm ww.pairs)
    (fun ww i hww => by rw [pairs_integrateStep]; exact hww)
  apply foldl_pres (fun ww n => (orderedPairs n).foldl (collideStep δ) ww)
    (fun ww => PairsSymm ww.pairs)
    (fun ww n hww =>
      foldl_pres (collideStep δ) (fun ww2 => PairsSymm ww2.pairs)
        (fun ww2 p hww2 => pairsSymm_collideStep δ ww2 p hww2)
        (orderedPairs n) ww hww)
  apply foldl_pres resetLandedStep (fun ww => PairsSymm ww.pairs)
    (fun ww j hww => pairsSymm_resetLandedStep ww j hww)
  exact h4

/-- C9: the colliding-pairs relation stays symmetric through every
operation — `World.add` leaves it untouched, `World.remove` scrubs
both directions of every edge touching the removed entity, and the
whole of `World.tick` (landed reset, eating, collision recording)
inserts and deletes edges in mirrored pairs. -/
theorem collidingPairs_symmetric_invariant :
    (∀ (w : World) (i : Nat) (e : Entity),
      PairsSymm w.pairs → PairsSymm ((w.addEntity i e).pairs)) ∧
    (∀ (w : World) (i : Nat),
      PairsSymm w.pairs → PairsSymm ((w.removeEntity i).pairs)) ∧
    (∀ (astar : AStarFn) (exploreFn : ExploreFn) (w : World) (δ rand : ℚ),
      PairsSymm w.pairs → PairsSymm ((w.tick astar exploreFn δ rand).pairs)) := by
  refine ⟨?_, ?_, ?_⟩
  · intro w i e h
    rw [pairs_addEntity]
    exact h
  · intro w i h
    exact pairsSymm_removeEntity w i h
  · intro astar exploreFn w δ rand h
    exact pairsSymm_tickAux astar exploreFn w δ rand h

/-- Witness for the colliding-pairs symmetry invariant at the
consuming-tick fixture, whose pairs relation `[(0,1),(1,0)]` is
symmetric: symmetry survives an add, a remove, and a full tick. -/
theorem collidingPairs_symmetric_invariant_witness :
    PairsSymm ((c4ready.addEntity 7 (blockEnt 0 0)).pairs) ∧
    PairsSymm ((c4ready.removeEntity 1).pairs) ∧
    PairsSymm ((c4ready.tick trivialAstar trivialExplore (1/100) 0).pairs) := by
  have hsymm : PairsSymm c4ready.pairs := by
    intro a b
    constructor <;> intro hm <;>
      rcases List.mem_pair.mp hm with h | h <;>
        (injection h with h1 h2; subst h1; subst h2; simp [c4ready, List.mem_pair])
  exact ⟨collidingPairs_symmetric_invariant.1 c4ready 7 (blockEnt 0 0) hsymm,
    (collidingPairs_symmetric_invariant.2.1) c4ready 1 hsymm,
    (collidingPairs_symmetric_invariant.2.2) trivialAstar trivialExplore c4ready (1/100) 0 hsymm⟩

end Groblins
